import Mathlib

/-!
Verification of the commissioning pipeline in
`src/production_line/production_line.py`.

The Python program is orchestration code over external collaborators (the
cloud registry, DynamoDB, the local filesystem, an external provisioning
subprocess and a hardware debug probe).  We embed it shallowly: every
externally visible effect is recorded in an explicit `World` state, and the
response of every external collaborator is supplied by an `Env` oracle, so
that each Python method becomes a pure Lean function `Env → World → … →
result × World`.  Python exceptions become `Except` values; `try/except`
blocks that swallow an exception and return `False` become the corresponding
`Bool`-valued matches.  Relative paths are resolved against the process
working directory (`Env.cwd`), exactly as `open`/`os.path.exists` do.
-/

/-- A DynamoDB row exactly as `ProductionLine.store_device_info` builds it:
`{deviceId, wireless_device_id, wireless_device_arn, thing_arn, created_at,
status}`.  `thing_arn` is `Option` because the stage-1 checkpoint passes
Python `None`. -/
structure InventoryItem where
  deviceId : String
  wireless_device_id : String
  wireless_device_arn : String
  thing_arn : Option String
  created_at : String
  status : String
deriving DecidableEq, Repr

/-- One externally visible call made by the pipeline, in program order. -/
inductive Event where
  | createWirelessDevice (name : String)
  | putItem (item : InventoryItem)
  | createThing (name : String)
  | associate (thingArn wirelessDeviceId : String)
  | getDeviceProfile (profileId : String)
  | getWirelessDevice (wirelessDeviceId : String)
  | saveFile (path : String)
  | toolRun (deviceProfileJson wirelessDeviceJson outputBin outputHex : String)
  | apiOpen
  | enumEmu
  | connectToEmu (snr : Nat)
  | recover
  | eraseAll
  | programFile (path : String)
  | go
  | sysReset
deriving DecidableEq, Repr

/-- The observable state of the outside world: the set of files on disk
(absolute paths), the trace of external calls, the sequence of rows put into
the DynamoDB table, the cloud resources successfully created, and the images
currently programmed on the attached chip (cleared by `erase_all`). -/
structure World where
  fs : List String
  events : List Event
  ledger : List InventoryItem
  wirelessDevices : List (String × String × String)
  things : List (String × String)
  associations : List (String × String)
  chip : List String
deriving DecidableEq, Repr

/-- Responses of all external collaborators, plus the process-level
configuration the program reads (`os.getenv`, `__file__`, the working
directory, `datetime.utcnow()`). -/
structure Env where
  now : String
  scriptDir : String
  cwd : String
  firmwareHexPath : String
  profileId : String
  destinationName : String
  createWirelessDeviceResp : String → Except String (String × String)
  createThingResp : String → Except String String
  associateResp : String → String → Except String Unit
  putItemResp : InventoryItem → Except String Unit
  getDeviceProfileResp : String → Except String String
  getWirelessDeviceResp : String → Except String String
  saveResp : String → Except String Unit
  toolExit : Nat
  toolCreatesBin : Bool
  toolCreatesHex : Bool
  probeSerials : List Nat
  connectResp : Nat → Except String Unit
  recoverResp : Except String Unit
  eraseResp : Except String Unit
  programResp : String → Except String Unit
  goResp : Except String Unit
  resetResp : Except String Unit

/-- Append one event to the trace. -/
def logEvent (w : World) (e : Event) : World :=
  { w with events := w.events ++ [e] }

/-- Whether a path string is absolute (starts with a slash). -/
def isAbsolute (p : String) : Bool :=
  match p.data with
  | [] => false
  | c :: _ => c = '/'

/-- Resolution of a path against the working directory, as Python's
`open`/`os.path.exists` do for relative paths. -/
def resolve (cwd p : String) : String :=
  if isAbsolute p then p else cwd ++ "/" ++ p

/-- Python `os.path.join` for the non-absolute second arguments used here. -/
def joinPath (a b : String) : String := a ++ "/" ++ b

/-- Python `os.path.exists`: the path, resolved against the working
directory, is among the files on disk. -/
def path_exists (cwd : String) (fs : List String) (p : String) : Prop :=
  resolve cwd p ∈ fs

instance (cwd : String) (fs : List String) (p : String) :
    Decidable (path_exists cwd fs p) :=
  inferInstanceAs (Decidable (resolve cwd p ∈ fs))

/-- The `self.device_files_dir` computed in `ProductionLine.__init__`:
`os.path.join(os.path.dirname(__file__), 'device_files')`. -/
def device_files_dir (env : Env) : String := joinPath env.scriptDir "device_files"

/-- Python `save_json_file`: writes the JSON and returns the path, or raises
(the write's outcome comes from `Env.saveResp`). -/
def save_json_file (env : Env) (w : World) (filepath _data : String) :
    Except String String × World :=
  let w1 := logEvent w (.saveFile filepath)
  match env.saveResp filepath with
  | .ok _ => (.ok filepath, { w1 with fs := resolve env.cwd filepath :: w1.fs })
  | .error e => (.error e, w1)

/-- Python `get_device_profile`: a single registry call, re-raised on error. -/
def get_device_profile (env : Env) (w : World) (profile_id : String) :
    Except String String × World :=
  (env.getDeviceProfileResp profile_id, logEvent w (.getDeviceProfile profile_id))

/-- Python `get_wireless_device`: a single registry call, re-raised on error. -/
def get_wireless_device (env : Env) (w : World) (device_id : String) :
    Except String String × World :=
  (env.getWirelessDeviceResp device_id, logEvent w (.getWirelessDevice device_id))

/-- `os.path.join("device_files", device_id)` in `provision_device`.  Note:
relative to the working directory, not to `device_files_dir`. -/
def output_dir (device_id : String) : String := joinPath "device_files" device_id

/-- The `output_bin` path of `provision_device`. -/
def output_bin (device_id : String) : String :=
  joinPath (output_dir device_id) (device_id ++ "_mfg.bin")

/-- The `output_hex` path of `provision_device`. -/
def output_hex (device_id : String) : String :=
  joinPath (output_dir device_id) (device_id ++ "_mfg.hex")

/-- Python `provision_device`: runs the external provisioning script
(`subprocess.run`), fails on a non-zero exit code, then fails if the expected
binary output file does not exist; any raised exception is caught and turned
into `False`.  The subprocess may create the two output files, as dictated by
`Env.toolCreatesBin`/`Env.toolCreatesHex`. -/
def provision_device (env : Env) (w : World)
    (device_id device_profile_json wireless_device_json : String) : Bool × World :=
  let w1 := logEvent w
    (.toolRun device_profile_json wireless_device_json
      (output_bin device_id) (output_hex device_id))
  let w2 := { w1 with fs :=
    (if env.toolCreatesBin then [resolve env.cwd (output_bin device_id)] else []) ++
    (if env.toolCreatesHex then [resolve env.cwd (output_hex device_id)] else []) ++
    w1.fs }
  if env.toolExit ≠ 0 then (false, w2)
  else if path_exists env.cwd w2.fs (output_bin device_id) then (true, w2)
  else (false, w2)

/-- The `mfg_hex_path` computed in `flash_device`:
`os.path.join("device_files", device_id, f"{device_id}_mfg.hex")`. -/
def mfg_hex_path (device_id : String) : String :=
  joinPath (joinPath "device_files" device_id) (device_id ++ "_mfg.hex")

/-- Python `flash_device`: checks both hex files exist, then drives the probe
API (`enum_emu_snr`, `connect_to_emu_with_snr` on the first serial, `recover`,
`erase_all`, `program_file` twice, `go`/`sys_reset`/`go`); every raised
exception is caught and turned into `False`. -/
def flash_device (env : Env) (w : World) (device_id : String) : Bool × World :=
  let mfg := mfg_hex_path device_id
  let fw := env.firmwareHexPath
  if path_exists env.cwd w.fs mfg then
    if path_exists env.cwd w.fs fw then
      let w1 := logEvent (logEvent w .apiOpen) .enumEmu
      match env.probeSerials with
      | [] => (false, w1)
      | snr :: _ =>
        let w2 := logEvent w1 (.connectToEmu snr)
        match env.connectResp snr with
        | .error _ => (false, w2)
        | .ok _ =>
          let w3 := logEvent w2 .recover
          match env.recoverResp with
          | .error _ => (false, w3)
          | .ok _ =>
            let w4 := logEvent w3 .eraseAll
            match env.eraseResp with
            | .error _ => (false, w4)
            | .ok _ =>
              let w5 := { w4 with chip := [] }
              let w6 := logEvent w5 (.programFile mfg)
              match env.programResp mfg with
              | .error _ => (false, w6)
              | .ok _ =>
                let w7 := { w6 with chip := w6.chip ++ [mfg] }
                let w8 := logEvent w7 (.programFile fw)
                match env.programResp fw with
                | .error _ => (false, w8)
                | .ok _ =>
                  let w9 := { w8 with chip := w8.chip ++ [fw] }
                  let w10 := logEvent w9 .go
                  match env.goResp with
                  | .error _ => (false, w10)
                  | .ok _ =>
                    let w11 := logEvent w10 .sysReset
                    match env.resetResp with
                    | .error _ => (false, w11)
                    | .ok _ =>
                      let w12 := logEvent w11 .go
                      match env.goResp with
                      | .error _ => (false, w12)
                      | .ok _ => (true, w12)
    else (false, w)
  else (false, w)

/-- Python `store_device_info`: builds the item (always with
`status: 'active'`) and puts it into the DynamoDB table, re-raising on
error. -/
def store_device_info (env : Env) (w : World)
    (device_id wireless_device_id wireless_device_arn : String)
    (thing_arn : Option String) : Except String Unit × World :=
  let item : InventoryItem :=
    ⟨device_id, wireless_device_id, wireless_device_arn, thing_arn, env.now, "active"⟩
  let w1 := logEvent w (.putItem item)
  match env.putItemResp item with
  | .ok _ => (.ok (), { w1 with ledger := w1.ledger ++ [item] })
  | .error e => (.error e, w1)

/-- Python `create_sidewalk_device`: one `create_wireless_device` registry
call, then the stage-1 checkpoint row (`thing_arn = None`); re-raises on
error. -/
def create_sidewalk_device (env : Env) (w : World) (device_id : String) :
    Except String (String × String) × World :=
  let w1 := logEvent w (.createWirelessDevice device_id)
  match env.createWirelessDeviceResp device_id with
  | .error e => (.error e, w1)
  | .ok (wid, warn) =>
    let w2 := { w1 with wirelessDevices := w1.wirelessDevices ++ [(device_id, wid, warn)] }
    match store_device_info env w2 device_id wid warn none with
    | (.error e, w3) => (.error e, w3)
    | (.ok _, w3) => (.ok (wid, warn), w3)

/-- Python `create_iot_thing`: one `create_thing` registry call, re-raised on
error. -/
def create_iot_thing (env : Env) (w : World) (device_id : String) :
    Except String String × World :=
  let w1 := logEvent w (.createThing device_id)
  match env.createThingResp device_id with
  | .error e => (.error e, w1)
  | .ok arn => (.ok arn, { w1 with things := w1.things ++ [(device_id, arn)] })

/-- Python `associate_thing_with_sidewalk_device`: one
`associate_wireless_device_with_thing` call, re-raised on error. -/
def associate_thing_with_sidewalk_device (env : Env) (w : World)
    (thing_arn wireless_device_id : String) : Except String Unit × World :=
  let w1 := logEvent w (.associate thing_arn wireless_device_id)
  match env.associateResp thing_arn wireless_device_id with
  | .error e => (.error e, w1)
  | .ok _ =>
    (.ok (), { w1 with associations := w1.associations ++ [(thing_arn, wireless_device_id)] })

/-- The pipeline stage at which a run of `process_device` failed (the point
in its `try` block where the exception arose). -/
inductive Stage where
  | register
  | createThing
  | associate
  | persistInventory
  | fetchDescriptors
  | provision
  | flash
deriving DecidableEq, Repr

/-- The position of a stage in the pipeline's fixed order. -/
def stageNum : Stage → Nat
  | .register => 1
  | .createThing => 2
  | .associate => 3
  | .persistInventory => 4
  | .fetchDescriptors => 5
  | .provision => 6
  | .flash => 7

/-- The stage an external call belongs to.  The two `put_item` calls are told
apart by their `thing_arn` field: the stage-1 checkpoint carries `none`, the
stage-4 final row carries `some`. -/
def eventStage : Event → Nat
  | .createWirelessDevice _ => 1
  | .putItem item => match item.thing_arn with | none => 1 | some _ => 4
  | .createThing _ => 2
  | .associate _ _ => 3
  | .getDeviceProfile _ => 5
  | .getWirelessDevice _ => 5
  | .saveFile _ => 5
  | .toolRun _ _ _ _ => 6
  | .apiOpen => 7
  | .enumEmu => 7
  | .connectToEmu _ => 7
  | .recover => 7
  | .eraseAll => 7
  | .programFile _ => 7
  | .go => 7
  | .sysReset => 7

/-- Whether an event is one of the probe operations that touch the chip or
the probe connection (connect, recover, erase, program). -/
def isHwOp : Event → Bool
  | .connectToEmu _ => true
  | .recover => true
  | .eraseAll => true
  | .programFile _ => true
  | _ => false

/-- Whether an event is a wireless-device creation call. -/
def isCW : Event → Bool
  | .createWirelessDevice _ => true
  | _ => false

/-- Whether an event is a thing creation call. -/
def isCT : Event → Bool
  | .createThing _ => true
  | _ => false

/-- Whether an event is an association call. -/
def isAssoc : Event → Bool
  | .associate _ _ => true
  | _ => false

/-- Python `process_device`, before its catch-all `except`: the body of the
`try` block, with the stage at which an exception arose made explicit. -/
def process_deviceR (env : Env) (w : World) (device_id : String) :
    Except (Stage × String) Unit × World :=
  match create_sidewalk_device env w device_id with
  | (.error e, w1) => (.error (.register, e), w1)
  | (.ok (wid, warn), w1) =>
  match create_iot_thing env w1 device_id with
  | (.error e, w2) => (.error (.createThing, e), w2)
  | (.ok thing_arn, w2) =>
  match associate_thing_with_sidewalk_device env w2 thing_arn wid with
  | (.error e, w3) => (.error (.associate, e), w3)
  | (.ok _, w3) =>
  match store_device_info env w3 device_id wid warn (some thing_arn) with
  | (.error e, w4) => (.error (.persistInventory, e), w4)
  | (.ok _, w4) =>
  match get_device_profile env w4 env.profileId with
  | (.error e, w5) => (.error (.fetchDescriptors, e), w5)
  | (.ok device_profile, w5) =>
  match get_wireless_device env w5 wid with
  | (.error e, w6) => (.error (.fetchDescriptors, e), w6)
  | (.ok wireless_device, w6) =>
  match save_json_file env w6
      (joinPath (joinPath (device_files_dir env) device_id) "device_profile.json")
      device_profile with
  | (.error e, w7) => (.error (.fetchDescriptors, e), w7)
  | (.ok device_profile_path, w7) =>
  match save_json_file env w7
      (joinPath (joinPath (device_files_dir env) device_id) "wireless_device.json")
      wireless_device with
  | (.error e, w8) => (.error (.fetchDescriptors, e), w8)
  | (.ok wireless_device_path, w8) =>
  match provision_device env w8 device_id device_profile_path wireless_device_path with
  | (false, w9) => (.error (.provision, "Device provisioning failed"), w9)
  | (true, w9) =>
  match flash_device env w9 device_id with
  | (false, w10) => (.error (.flash, "Device flashing failed"), w10)
  | (true, w10) => (.ok (), w10)

/-- Python `process_device` as its caller sees it: the catch-all `except`
turns any exception into `False`. -/
def process_device (env : Env) (w : World) (device_id : String) : Bool × World :=
  match process_deviceR env w device_id with
  | (.ok _, w') => (true, w')
  | (.error _, w') => (false, w')

/-- The path of the `device_profile.json` descriptor that `process_device`
passes to `save_json_file`. -/
def dp_json_path (env : Env) (dev : String) : String :=
  joinPath (joinPath (device_files_dir env) dev) "device_profile.json"

/-- The path of the `wireless_device.json` descriptor that `process_device`
passes to `save_json_file`. -/
def wd_json_path (env : Env) (dev : String) : String :=
  joinPath (joinPath (device_files_dir env) dev) "wireless_device.json"

/-- The filesystem after the provisioning subprocess has run during a full
`process_device` run: the two descriptor files written by stage 5 plus
whatever output files the tool created. -/
def fsAfterRun (env : Env) (w : World) (dev : String) : List String :=
  (if env.toolCreatesBin then [resolve env.cwd (output_bin dev)] else []) ++
  (if env.toolCreatesHex then [resolve env.cwd (output_hex dev)] else []) ++
  resolve env.cwd (wd_json_path env dev) :: resolve env.cwd (dp_json_path env dev) :: w.fs

/-- The filesystem after a bare `provision_device` call on world `w`. -/
def provisionFs (env : Env) (w : World) (dev : String) : List String :=
  (if env.toolCreatesBin then [resolve env.cwd (output_bin dev)] else []) ++
  (if env.toolCreatesHex then [resolve env.cwd (output_hex dev)] else []) ++
  w.fs

/-- The full external-call trace of one successful `process_device` run. -/
def successEvents (env : Env) (dev wid warn tarn : String) (snr : Nat) : List Event :=
  [.createWirelessDevice dev,
   .putItem ⟨dev, wid, warn, none, env.now, "active"⟩,
   .createThing dev,
   .associate tarn wid,
   .putItem ⟨dev, wid, warn, some tarn, env.now, "active"⟩,
   .getDeviceProfile env.profileId,
   .getWirelessDevice wid,
   .saveFile (dp_json_path env dev),
   .saveFile (wd_json_path env dev),
   .toolRun (dp_json_path env dev) (wd_json_path env dev) (output_bin dev) (output_hex dev),
   .apiOpen, .enumEmu, .connectToEmu snr, .recover, .eraseAll,
   .programFile (mfg_hex_path dev), .programFile env.firmwareHexPath,
   .go, .sysReset, .go]

/-- The world a successful `process_device` run leaves behind, as a function
of the starting world and the values returned by the collaborators. -/
def successWorld (env : Env) (w : World) (dev wid warn tarn : String) (snr : Nat) : World :=
  { fs := fsAfterRun env w dev,
    events := w.events ++ successEvents env dev wid warn tarn snr,
    ledger := w.ledger ++ [⟨dev, wid, warn, none, env.now, "active"⟩,
                          ⟨dev, wid, warn, some tarn, env.now, "active"⟩],
    wirelessDevices := w.wirelessDevices ++ [(dev, wid, warn)],
    things := w.things ++ [(dev, tarn)],
    associations := w.associations ++ [(tarn, wid)],
    chip := [mfg_hex_path dev, env.firmwareHexPath] }

/-- The pipeline position a run reached: the stage at which `process_device`
failed, or 7 (the last stage) when it succeeded. -/
def failStage (env : Env) (w : World) (dev : String) : Nat :=
  match (process_deviceR env w dev).1 with
  | .ok _ => 7
  | .error (s, _) => stageNum s

/-- The directory part of a path (everything before the last slash). -/
def dirname (p : String) : String :=
  String.mk ((((p.data.reverse.dropWhile (fun c => c ≠ '/')).drop 1)).reverse)

/-- A sample environment in which every collaborator answers successfully,
used to exhibit concrete runs. -/
def sampleEnv : Env :=
  { now := "T0", scriptDir := "/app", cwd := "/app", firmwareHexPath := "/fw.hex",
    profileId := "pid", destinationName := "dest",
    createWirelessDeviceResp := fun _ => .ok ("wd-123", "arn-wd"),
    createThingResp := fun _ => .ok "arn-thing",
    associateResp := fun _ _ => .ok (),
    putItemResp := fun _ => .ok (),
    getDeviceProfileResp := fun _ => .ok "dp",
    getWirelessDeviceResp := fun _ => .ok "wd",
    saveResp := fun _ => .ok (),
    toolExit := 0, toolCreatesBin := true, toolCreatesHex := true,
    probeSerials := [42],
    connectResp := fun _ => .ok (),
    recoverResp := .ok (), eraseResp := .ok (),
    programResp := fun _ => .ok (),
    goResp := .ok (), resetResp := .ok () }

/-- A sample starting world: only the firmware hex file exists on disk. -/
def sampleWorld : World := ⟨["/fw.hex"], [], [], [], [], [], []⟩

/-- `sampleEnv` with a failing `associate_wireless_device_with_thing` call. -/
def assocFailEnv : Env := { sampleEnv with associateResp := fun _ _ => .error "conflict" }

/-- `sampleEnv` with a provisioning tool that exits 0 but only produces the
binary, not the hex file. -/
def hexMissingEnv : Env := { sampleEnv with toolCreatesHex := false }

/-- `sampleEnv` with a provisioning tool that exits 0 but produces no output
files at all. -/
def binMissingEnv : Env := { sampleEnv with toolCreatesBin := false, toolCreatesHex := false }

/-- `sampleEnv` run from a working directory different from the module's
directory. -/
def splitDirEnv : Env := { sampleEnv with cwd := "/run" }

/-- `sampleEnv` with no debug probe attached. -/
def noProbeEnv : Env := { sampleEnv with probeSerials := [] }

/-- A world in which both hex files needed by `flash_device` already exist
(under `sampleEnv`'s working directory `/app`). -/
def flashReadyWorld : World :=
  ⟨["/fw.hex", "/app/device_files/D1/D1_mfg.hex"], [], [], [], [], [], []⟩
theorem process_device_ok_eq (env : Env) (w : World) (dev wid warn tarn dp wd : String)
    (snr : Nat) (rest : List Nat)
    (h1 : env.createWirelessDeviceResp dev = .ok (wid, warn))
    (h2 : env.putItemResp ⟨dev, wid, warn, none, env.now, "active"⟩ = .ok ())
    (h3 : env.createThingResp dev = .ok tarn)
    (h4 : env.associateResp tarn wid = .ok ())
    (h5 : env.putItemResp ⟨dev, wid, warn, some tarn, env.now, "active"⟩ = .ok ())
    (h6 : env.getDeviceProfileResp env.profileId = .ok dp)
    (h7 : env.getWirelessDeviceResp wid = .ok wd)
    (h8 : env.saveResp (dp_json_path env dev) = .ok ())
    (h9 : env.saveResp (wd_json_path env dev) = .ok ())
    (h10 : env.toolExit = 0)
    (h11 : path_exists env.cwd (fsAfterRun env w dev) (output_bin dev))
    (h12 : path_exists env.cwd (fsAfterRun env w dev) (mfg_hex_path dev))
    (h13 : path_exists env.cwd (fsAfterRun env w dev) env.firmwareHexPath)
    (h14 : env.probeSerials = snr :: rest)
    (h15 : env.connectResp snr = .ok ())
    (h16 : env.recoverResp = .ok ())
    (h17 : env.eraseResp = .ok ())
    (h18 : env.programResp (mfg_hex_path dev) = .ok ())
    (h19 : env.programResp env.firmwareHexPath = .ok ())
    (h20 : env.goResp = .ok ())
    (h21 : env.resetResp = .ok ()) :
    process_device env w dev = (true, successWorld env w dev wid warn tarn snr) := by
  simp only [fsAfterRun, dp_json_path, wd_json_path, List.append_assoc] at h8 h9 h11 h12 h13
  simp only [process_device, process_deviceR, create_sidewalk_device, store_device_info,
    create_iot_thing, associate_thing_with_sidewalk_device, get_device_profile,
    get_wireless_device, save_json_file, provision_device, flash_device, logEvent,
    dp_json_path, wd_json_path, successWorld, successEvents, fsAfterRun,
    h1, h2, h3, h4, h5, h6, h7, h8, h9, h10, h14, h15, h16, h17, h18, h19, h20, h21]
  simp [h11, h12, h13, List.append_assoc]

theorem run_success_spec (env : Env) (w : World) (dev : String)
    (hs : (process_device env w dev).1 = true) :
    ∃ wid warn tarn snr,
      env.createWirelessDeviceResp dev = .ok (wid, warn) ∧
      env.createThingResp dev = .ok tarn ∧
      env.associateResp tarn wid = .ok () ∧
      path_exists env.cwd (fsAfterRun env w dev) (output_bin dev) ∧
      path_exists env.cwd (fsAfterRun env w dev) (mfg_hex_path dev) ∧
      path_exists env.cwd (fsAfterRun env w dev) env.firmwareHexPath ∧
      (process_device env w dev).2 = successWorld env w dev wid warn tarn snr := by
  rcases h1 : env.createWirelessDeviceResp dev with e | ⟨wid, warn⟩
  · simp [process_device, process_deviceR, create_sidewalk_device, logEvent, h1] at hs
  rcases h2 : env.putItemResp ⟨dev, wid, warn, none, env.now, "active"⟩ with e | u
  · simp [process_device, process_deviceR, create_sidewalk_device, store_device_info, logEvent,
      h1, h2] at hs
  rcases h3 : env.createThingResp dev with e | tarn
  · simp [process_device, process_deviceR, create_sidewalk_device, store_device_info,
      create_iot_thing, logEvent, h1, h2, h3] at hs
  rcases h4 : env.associateResp tarn wid with e | u4
  · simp [process_device, process_deviceR, create_sidewalk_device, store_device_info,
      create_iot_thing, associate_thing_with_sidewalk_device, logEvent, h1, h2, h3, h4] at hs
  rcases h5 : env.putItemResp ⟨dev, wid, warn, some tarn, env.now, "active"⟩ with e | u5
  · simp [process_device, process_deviceR, create_sidewalk_device, store_device_info,
      create_iot_thing, associate_thing_with_sidewalk_device, logEvent, h1, h2, h3, h4, h5] at hs
  rcases h6 : env.getDeviceProfileResp env.profileId with e | dp
  · simp [process_device, process_deviceR, create_sidewalk_device, store_device_info,
      create_iot_thing, associate_thing_with_sidewalk_device, get_device_profile, logEvent,
      h1, h2, h3, h4, h5, h6] at hs
  rcases h7 : env.getWirelessDeviceResp wid with e | wd
  · simp [process_device, process_deviceR, create_sidewalk_device, store_device_info,
      create_iot_thing, associate_thing_with_sidewalk_device, get_device_profile,
      get_wireless_device, logEvent, h1, h2, h3, h4, h5, h6, h7] at hs
  rcases h8 : env.saveResp (joinPath (joinPath (device_files_dir env) dev)
      "device_profile.json") with e | u8
  · simp [process_device, process_deviceR, create_sidewalk_device, store_device_info,
      create_iot_thing, associate_thing_with_sidewalk_device, get_device_profile,
      get_wireless_device, save_json_file, logEvent, h1, h2, h3, h4, h5, h6, h7, h8] at hs
  rcases h9 : env.saveResp (joinPath (joinPath (device_files_dir env) dev)
      "wireless_device.json") with e | u9
  · simp [process_device, process_deviceR, create_sidewalk_device, store_device_info,
      create_iot_thing, associate_thing_with_sidewalk_device, get_device_profile,
      get_wireless_device, save_json_file, logEvent, h1, h2, h3, h4, h5, h6, h7, h8, h9] at hs
  by_cases h10 : env.toolExit = 0
  case neg =>
    simp [process_device, process_deviceR, create_sidewalk_device, store_device_info,
      create_iot_thing, associate_thing_with_sidewalk_device, get_device_profile,
      get_wireless_device, save_json_file, logEvent, provision_device,
      h1, h2, h3, h4, h5, h6, h7, h8, h9, h10] at hs
  by_cases h11 : path_exists env.cwd (fsAfterRun env w dev) (output_bin dev)
  case neg =>
    simp only [fsAfterRun, dp_json_path, wd_json_path, List.append_assoc] at h11
    simp [process_device, process_deviceR, create_sidewalk_device, store_device_info,
      create_iot_thing, associate_thing_with_sidewalk_device, get_device_profile,
      get_wireless_device, save_json_file, logEvent, provision_device,
      h1, h2, h3, h4, h5, h6, h7, h8, h9, h10, h11] at hs
  by_cases h12 : path_exists env.cwd (fsAfterRun env w dev) (mfg_hex_path dev)
  case neg =>
    simp only [fsAfterRun, dp_json_path, wd_json_path, List.append_assoc] at h11 h12
    simp [process_device, process_deviceR, create_sidewalk_device, store_device_info,
      create_iot_thing, associate_thing_with_sidewalk_device, get_device_profile,
      get_wireless_device, save_json_file, logEvent, provision_device, flash_device,
      h1, h2, h3, h4, h5, h6, h7, h8, h9, h10, h11, h12] at hs
  by_cases h13 : path_exists env.cwd (fsAfterRun env w dev) env.firmwareHexPath
  case neg =>
    simp only [fsAfterRun, dp_json_path, wd_json_path, List.append_assoc] at h11 h12 h13
    simp [process_device, process_deviceR, create_sidewalk_device, store_device_info,
      create_iot_thing, associate_thing_with_sidewalk_device, get_device_profile,
      get_wireless_device, save_json_file, logEvent, provision_device, flash_device,
      h1, h2, h3, h4, h5, h6, h7, h8, h9, h10, h11, h12, h13] at hs
  rcases h14 : env.probeSerials with _ | ⟨snr, rest⟩
  · simp only [fsAfterRun, dp_json_path, wd_json_path, List.append_assoc] at h11 h12 h13
    simp [process_device, process_deviceR, create_sidewalk_device, store_device_info,
      create_iot_thing, associate_thing_with_sidewalk_device, get_device_profile,
      get_wireless_device, save_json_file, logEvent, provision_device, flash_device,
      h1, h2, h3, h4, h5, h6, h7, h8, h9, h10, h11, h12, h13, h14] at hs
  rcases h15 : env.connectResp snr with e | u15
  · simp only [fsAfterRun, dp_json_path, wd_json_path, List.append_assoc] at h11 h12 h13
    simp [process_device, process_deviceR, create_sidewalk_device, store_device_info,
      create_iot_thing, associate_thing_with_sidewalk_device, get_device_profile,
      get_wireless_device, save_json_file, logEvent, provision_device, flash_device,
      h1, h2, h3, h4, h5, h6, h7, h8, h9, h10, h11, h12, h13, h14, h15] at hs
  rcases h16 : env.recoverResp with e | u16
  · simp only [fsAfterRun, dp_json_path, wd_json_path, List.append_assoc] at h11 h12 h13
    simp [process_device, process_deviceR, create_sidewalk_device, store_device_info,
      create_iot_thing, associate_thing_with_sidewalk_device, get_device_profile,
      get_wireless_device, save_json_file, logEvent, provision_device, flash_device,
      h1, h2, h3, h4, h5, h6, h7, h8, h9, h10, h11, h12, h13, h14, h15, h16] at hs
  rcases h17 : env.eraseResp with e | u17
  · simp only [fsAfterRun, dp_json_path, wd_json_path, List.append_assoc] at h11 h12 h13
    simp [process_device, process_deviceR, create_sidewalk_device, store_device_info,
      create_iot_thing, associate_thing_with_sidewalk_device, get_device_profile,
      get_wireless_device, save_json_file, logEvent, provision_device, flash_device,
      h1, h2, h3, h4, h5, h6, h7, h8, h9, h10, h11, h12, h13, h14, h15, h16, h17] at hs
  rcases h18 : env.programResp (mfg_hex_path dev) with e | u18
  · simp only [fsAfterRun, dp_json_path, wd_json_path, List.append_assoc] at h11 h12 h13
    simp [process_device, process_deviceR, create_sidewalk_device, store_device_info,
      create_iot_thing, associate_thing_with_sidewalk_device, get_device_profile,
      get_wireless_device, save_json_file, logEvent, provision_device, flash_device,
      h1, h2, h3, h4, h5, h6, h7, h8, h9, h10, h11, h12, h13, h14, h15, h16, h17,
      h18] at hs
  rcases h19 : env.programResp env.firmwareHexPath with e | u19
  · simp only [fsAfterRun, dp_json_path, wd_json_path, List.append_assoc] at h11 h12 h13
    simp [process_device, process_deviceR, create_sidewalk_device, store_device_info,
      create_iot_thing, associate_thing_with_sidewalk_device, get_device_profile,
      get_wireless_device, save_json_file, logEvent, provision_device, flash_device,
      h1, h2, h3, h4, h5, h6, h7, h8, h9, h10, h11, h12, h13, h14, h15, h16, h17, h18,
      h19] at hs
  rcases h20 : env.goResp with e | u20
  · simp only [fsAfterRun, dp_json_path, wd_json_path, List.append_assoc] at h11 h12 h13
    simp [process_device, process_deviceR, create_sidewalk_device, store_device_info,
      create_iot_thing, associate_thing_with_sidewalk_device, get_device_profile,
      get_wireless_device, save_json_file, logEvent, provision_device, flash_device,
      h1, h2, h3, h4, h5, h6, h7, h8, h9, h10, h11, h12, h13, h14, h15, h16, h17, h18,
      h19, h20] at hs
  rcases h21 : env.resetResp with e | u21
  · simp only [fsAfterRun, dp_json_path, wd_json_path, List.append_assoc] at h11 h12 h13
    simp [process_device, process_deviceR, create_sidewalk_device, store_device_info,
      create_iot_thing, associate_thing_with_sidewalk_device, get_device_profile,
      get_wireless_device, save_json_file, logEvent, provision_device, flash_device,
      h1, h2, h3, h4, h5, h6, h7, h8, h9, h10, h11, h12, h13, h14, h15, h16, h17, h18,
      h19, h20, h21] at hs
  exact ⟨wid, warn, tarn, snr, rfl, rfl, h4, h11, h12, h13, by
    rw [process_device_ok_eq env w dev wid warn tarn dp wd snr rest h1 h2 h3 h4 h5 h6 h7
      h8 h9 h10 h11 h12 h13 h14 h15 h16 h17 h18 h19 h20 h21]⟩

/-- C1: for every non-empty device identifier, a `process_device` run that
returns success has performed exactly one wireless-device creation, one thing
creation and one association, written the stage-1 checkpoint row and a final
inventory row with `status = "active"` and the thing ARN populated, persisted
the two descriptor files, produced the two manufacturing image files, and
left the chip programmed with the manufacturing image and then the firmware
image. -/
theorem claim_C1_successful_run (env : Env) (w : World) (dev : String)
    (hdev : dev ≠ "")
    (hs : (process_device env w dev).1 = true) :
    ∃ wid warn tarn new,
      (process_device env w dev).2.events = w.events ++ new ∧
      new.countP isCW = 1 ∧
      new.countP isCT = 1 ∧
      new.countP isAssoc = 1 ∧
      (process_device env w dev).2.ledger =
        w.ledger ++ [⟨dev, wid, warn, none, env.now, "active"⟩,
                     ⟨dev, wid, warn, some tarn, env.now, "active"⟩] ∧
      path_exists env.cwd (process_device env w dev).2.fs (dp_json_path env dev) ∧
      path_exists env.cwd (process_device env w dev).2.fs (wd_json_path env dev) ∧
      path_exists env.cwd (process_device env w dev).2.fs (output_bin dev) ∧
      path_exists env.cwd (process_device env w dev).2.fs (output_hex dev) ∧
      (process_device env w dev).2.chip = [mfg_hex_path dev, env.firmwareHexPath] := by
  obtain ⟨wid, warn, tarn, snr, hcw, hct, has, hbin, hmfg, hfw, hw⟩ :=
    run_success_spec env w dev hs
  refine ⟨wid, warn, tarn, successEvents env dev wid warn tarn snr,
    ?_, ?_, ?_, ?_, ?_, ?_, ?_, ?_, ?_, ?_⟩
  · rw [hw]; simp [successWorld]
  · simp [successEvents, isCW, List.countP_cons]
  · simp [successEvents, isCT, List.countP_cons]
  · simp [successEvents, isAssoc, List.countP_cons]
  · rw [hw]; simp [successWorld]
  · rw [hw]; simp [successWorld, fsAfterRun, path_exists]
  · rw [hw]; simp [successWorld, fsAfterRun, path_exists]
  · rw [hw]; exact hbin
  · rw [hw]; exact hmfg
  · rw [hw]; simp [successWorld]

/-- Witness for C1: the all-success sample environment runs to success and the
conclusion holds there. -/
theorem claim_C1_successful_run_witness :
    ∃ wid warn tarn new,
      (process_device sampleEnv sampleWorld "D1").2.events = sampleWorld.events ++ new ∧
      new.countP isCW = 1 ∧
      new.countP isCT = 1 ∧
      new.countP isAssoc = 1 ∧
      (process_device sampleEnv sampleWorld "D1").2.ledger =
        sampleWorld.ledger ++
          [⟨"D1", wid, warn, none, sampleEnv.now, "active"⟩,
           ⟨"D1", wid, warn, some tarn, sampleEnv.now, "active"⟩] ∧
      path_exists sampleEnv.cwd (process_device sampleEnv sampleWorld "D1").2.fs
        (dp_json_path sampleEnv "D1") ∧
      path_exists sampleEnv.cwd (process_device sampleEnv sampleWorld "D1").2.fs
        (wd_json_path sampleEnv "D1") ∧
      path_exists sampleEnv.cwd (process_device sampleEnv sampleWorld "D1").2.fs
        (output_bin "D1") ∧
      path_exists sampleEnv.cwd (process_device sampleEnv sampleWorld "D1").2.fs
        (output_hex "D1") ∧
      (process_device sampleEnv sampleWorld "D1").2.chip =
        [mfg_hex_path "D1", sampleEnv.firmwareHexPath] :=
  claim_C1_successful_run sampleEnv sampleWorld "D1" (by decide) (by decide)

/-- C2: if the associate stage fails, the run fails at stage `associate` with
that error, `process_device` returns `False`, and the only inventory row
written is the stage-1 checkpoint, whose thing-ARN field is `none`. -/
theorem claim_C2_associate_failure (env : Env) (w : World) (dev wid warn tarn e : String)
    (h1 : env.createWirelessDeviceResp dev = .ok (wid, warn))
    (h2 : env.putItemResp ⟨dev, wid, warn, none, env.now, "active"⟩ = .ok ())
    (h3 : env.createThingResp dev = .ok tarn)
    (h4 : env.associateResp tarn wid = .error e) :
    (process_deviceR env w dev).1 = .error (Stage.associate, e) ∧
    (process_device env w dev).1 = false ∧
    (process_device env w dev).2.ledger =
      w.ledger ++ [⟨dev, wid, warn, none, env.now, "active"⟩] := by
  refine ⟨?_, ?_, ?_⟩ <;>
  simp [process_device, process_deviceR, create_sidewalk_device, store_device_info,
    create_iot_thing, associate_thing_with_sidewalk_device, logEvent, h1, h2, h3, h4]

/-- Witness for C2 at a concrete environment whose associate call fails. -/
theorem claim_C2_associate_failure_witness :
    (process_deviceR assocFailEnv sampleWorld "D1").1 = .error (Stage.associate, "conflict") ∧
    (process_device assocFailEnv sampleWorld "D1").1 = false ∧
    (process_device assocFailEnv sampleWorld "D1").2.ledger =
      sampleWorld.ledger ++ [⟨"D1", "wd-123", "arn-wd", none, "T0", "active"⟩] :=
  claim_C2_associate_failure assocFailEnv sampleWorld "D1" "wd-123" "arn-wd" "arn-thing"
    "conflict" rfl rfl rfl rfl

/-- C6: when both hex files exist but probe enumeration returns no serial
numbers, `flash_device` fails, the only new probe events are the API open and
the enumeration itself, and no connect, recover, erase or program call is
made (the hardware-op sub-trace, the chip and the filesystem are unchanged). -/
theorem claim_C6_no_probe (env : Env) (w : World) (dev : String)
    (hmfg : path_exists env.cwd w.fs (mfg_hex_path dev))
    (hfw : path_exists env.cwd w.fs env.firmwareHexPath)
    (hsn : env.probeSerials = []) :
    (flash_device env w dev).1 = false ∧
    (flash_device env w dev).2.events = w.events ++ [Event.apiOpen, Event.enumEmu] ∧
    (flash_device env w dev).2.events.filter isHwOp = w.events.filter isHwOp ∧
    (flash_device env w dev).2.chip = w.chip ∧
    (flash_device env w dev).2.fs = w.fs := by
  refine ⟨?_, ?_, ?_, ?_, ?_⟩ <;>
  simp [flash_device, logEvent, hmfg, hfw, hsn, List.filter_append, isHwOp]

/-- Witness for C6: no probe attached, both hexes on disk. -/
theorem claim_C6_no_probe_witness :
    (flash_device noProbeEnv flashReadyWorld "D1").1 = false ∧
    (flash_device noProbeEnv flashReadyWorld "D1").2.events =
      flashReadyWorld.events ++ [Event.apiOpen, Event.enumEmu] ∧
    (flash_device noProbeEnv flashReadyWorld "D1").2.events.filter isHwOp =
      flashReadyWorld.events.filter isHwOp ∧
    (flash_device noProbeEnv flashReadyWorld "D1").2.chip = flashReadyWorld.chip ∧
    (flash_device noProbeEnv flashReadyWorld "D1").2.fs = flashReadyWorld.fs :=
  claim_C6_no_probe noProbeEnv flashReadyWorld "D1" (by decide) (by decide) rfl

/-- C10: if the manufacturing hex or the firmware hex is missing from disk,
`flash_device` fails and the world is completely unchanged: the probe API is
never initialised, so no enumeration, connect, recover, erase, program or
reset happens. -/
theorem claim_C10_missing_hex (env : Env) (w : World) (dev : String)
    (h : ¬ path_exists env.cwd w.fs (mfg_hex_path dev) ∨
         ¬ path_exists env.cwd w.fs env.firmwareHexPath) :
    flash_device env w dev = (false, w) := by
  rcases h with h | h
  · simp [flash_device, h]
  · by_cases h2 : path_exists env.cwd w.fs (mfg_hex_path dev) <;> simp [flash_device, h, h2]

/-- Witness for C10: the manufacturing hex is absent from the sample world. -/
theorem claim_C10_missing_hex_witness :
    flash_device sampleEnv sampleWorld "D1" = (false, sampleWorld) :=
  claim_C10_missing_hex sampleEnv sampleWorld "D1" (Or.inl (by decide))

/-- The world `provision_device` produces is the same on every control path:
the tool-run event is logged and the tool's output files appear on disk. -/
theorem provision_device_world (env : Env) (w : World) (dev dpj wdj : String) :
    (provision_device env w dev dpj wdj).2.fs = provisionFs env w dev := by
  simp only [provision_device, provisionFs, logEvent]
  repeat' split
  all_goals rfl

/-- `provision_device` reports success exactly when the tool exited 0 and the
expected binary exists on the resulting filesystem. -/
theorem provision_device_result (env : Env) (w : World) (dev dpj wdj : String) :
    (provision_device env w dev dpj wdj).1 = true ↔
      env.toolExit = 0 ∧ path_exists env.cwd (provisionFs env w dev) (output_bin dev) := by
  by_cases h1 : env.toolExit = 0
  · by_cases h2 : path_exists env.cwd (provisionFs env w dev) (output_bin dev) <;>
    · simp only [provisionFs, List.append_assoc] at h2
      simp [provision_device, logEvent, provisionFs, h1, h2, List.append_assoc]
  · simp [provision_device, logEvent, provisionFs, h1, List.append_assoc]

/-- C3 (amended): when `provision_device` reports success, the tool exited
with code 0 and the manufacturing binary exists afterward.  (The hex file is
not checked: its absence does not make the stage fail, see the
counterexample.) -/
theorem claim_C3_provision_checks_binary (env : Env) (w : World) (dev dpj wdj : String)
    (hp : (provision_device env w dev dpj wdj).1 = true) :
    env.toolExit = 0 ∧
    path_exists env.cwd (provision_device env w dev dpj wdj).2.fs (output_bin dev) := by
  obtain ⟨h0, hb⟩ := (provision_device_result env w dev dpj wdj).mp hp
  exact ⟨h0, by rw [provision_device_world]; exact hb⟩

/-- Witness for the amended C3 at the sample environment. -/
theorem claim_C3_provision_checks_binary_witness :
    sampleEnv.toolExit = 0 ∧
    path_exists sampleEnv.cwd
      (provision_device sampleEnv sampleWorld "D1" "dp.json" "wd.json").2.fs
      (output_bin "D1") :=
  claim_C3_provision_checks_binary sampleEnv sampleWorld "D1" "dp.json" "wd.json" (by decide)

/-- Counterexample to C3 as stated: a tool run that exits 0 and creates only
the binary makes `provision_device` report success even though the
manufacturing hex file does not exist afterward. -/
theorem claim_C3_counterexample :
    (provision_device hexMissingEnv sampleWorld "D1" "dp.json" "wd.json").1 = true ∧
    ¬ path_exists hexMissingEnv.cwd
        (provision_device hexMissingEnv sampleWorld "D1" "dp.json" "wd.json").2.fs
        (output_hex "D1") := by
  decide

/-- C5: `provision_device` never reports success when the tool exits non-zero,
and never reports success on a zero exit whose expected binary output is
absent from the resulting filesystem (which is `provisionFs`, as the first
conjunct states). -/
theorem claim_C5_tool_failure (env : Env) (w : World) (dev dpj wdj : String) :
    (provision_device env w dev dpj wdj).2.fs = provisionFs env w dev ∧
    ((env.toolExit = 0 ∧ ¬ path_exists env.cwd (provisionFs env w dev) (output_bin dev)) →
      (provision_device env w dev dpj wdj).1 = false) ∧
    (env.toolExit ≠ 0 → (provision_device env w dev dpj wdj).1 = false) := by
  refine ⟨provision_device_world env w dev dpj wdj, ?_, ?_⟩
  · rintro ⟨h0, hb⟩
    cases hres : (provision_device env w dev dpj wdj).1
    · rfl
    · exact absurd ((provision_device_result env w dev dpj wdj).mp hres).2 hb
  · intro h0
    cases hres : (provision_device env w dev dpj wdj).1
    · rfl
    · exact absurd ((provision_device_result env w dev dpj wdj).mp hres).1 h0

/-- A nonempty string stays nonempty after appending. -/
theorem append_ne_empty_left (a b : String) (h : a ≠ "") : a ++ b ≠ "" := by
  intro heq
  apply h
  have hd : (a ++ b).data = ([] : List Char) := by rw [heq]
  rw [String.data_append] at hd
  rcases List.append_eq_nil.mp hd with ⟨ha, _⟩
  cases a
  simp at ha
  simp [ha]

/-- Appending to an absolute path keeps it absolute. -/
theorem isAbsolute_append_left (a b : String) (h : isAbsolute a = true) :
    isAbsolute (a ++ b) = true := by
  rcases a with ⟨da⟩
  cases da with
  | nil => simp [isAbsolute] at h
  | cons c t =>
    simp [isAbsolute] at h
    have hdata : (String.mk (c :: t) ++ b).data = c :: (t ++ b.data) := by
      rw [String.data_append]
      rfl
    simp [isAbsolute, hdata, h]

/-- Whether an append is absolute is decided by its nonempty left part. -/
theorem isAbsolute_append_of_ne (a b : String) (h : a ≠ "") :
    isAbsolute (a ++ b) = isAbsolute a := by
  rcases a with ⟨da⟩
  cases da with
  | nil => exact absurd rfl h
  | cons c t =>
    have hdata : (String.mk (c :: t) ++ b).data = c :: (t ++ b.data) := by
      rw [String.data_append]
      rfl
    simp [isAbsolute, hdata]

/-- Counterexample to C4 as stated: run from a working directory (`/run`)
different from the module directory (`/app`).  The run succeeds, the
descriptor is written under `/app/device_files/D1` while the binary image is
written under `/run/device_files/D1`: the four artifacts do not share one
per-device directory. -/
theorem claim_C4_counterexample :
    (process_device splitDirEnv sampleWorld "D1").1 = true ∧
    path_exists splitDirEnv.cwd (process_device splitDirEnv sampleWorld "D1").2.fs
      (dp_json_path splitDirEnv "D1") ∧
    path_exists splitDirEnv.cwd (process_device splitDirEnv sampleWorld "D1").2.fs
      (output_bin "D1") ∧
    dirname (resolve splitDirEnv.cwd (dp_json_path splitDirEnv "D1")) ≠
      dirname (resolve splitDirEnv.cwd (output_bin "D1")) := by
  decide

/-- C4 (amended): when the process working directory equals the module's
directory and that directory is absolute, a successful run places all four
per-device artifacts in the single directory
`<scriptDir>/device_files/<deviceId>`. -/
theorem claim_C4_same_directory (env : Env) (w : World) (dev : String)
    (hcwd : env.cwd = env.scriptDir)
    (habs : isAbsolute env.scriptDir = true)
    (hs : (process_device env w dev).1 = true) :
    ∃ d,
      resolve env.cwd (dp_json_path env dev) = joinPath d "device_profile.json" ∧
      resolve env.cwd (wd_json_path env dev) = joinPath d "wireless_device.json" ∧
      resolve env.cwd (output_bin dev) = joinPath d (dev ++ "_mfg.bin") ∧
      resolve env.cwd (output_hex dev) = joinPath d (dev ++ "_mfg.hex") ∧
      path_exists env.cwd (process_device env w dev).2.fs (dp_json_path env dev) ∧
      path_exists env.cwd (process_device env w dev).2.fs (wd_json_path env dev) ∧
      path_exists env.cwd (process_device env w dev).2.fs (output_bin dev) ∧
      path_exists env.cwd (process_device env w dev).2.fs (output_hex dev) := by
  obtain ⟨wid, warn, tarn, snr, hcw, hct, has, hbin, hmfg, hfw, hw⟩ :=
    run_success_spec env w dev hs
  have habsdp : isAbsolute (dp_json_path env dev) = true := by
    unfold dp_json_path joinPath device_files_dir
    exact isAbsolute_append_left _ _ (isAbsolute_append_left _ _ (isAbsolute_append_left _ _
      (isAbsolute_append_left _ _ (isAbsolute_append_left _ _
        (isAbsolute_append_left _ _ habs)))))
  have habswd : isAbsolute (wd_json_path env dev) = true := by
    unfold wd_json_path joinPath device_files_dir
    exact isAbsolute_append_left _ _ (isAbsolute_append_left _ _ (isAbsolute_append_left _ _
      (isAbsolute_append_left _ _ (isAbsolute_append_left _ _
        (isAbsolute_append_left _ _ habs)))))
  have n1 : ("device_files" : String) ≠ "" := by decide
  have n2 : ("device_files" ++ "/" : String) ≠ "" := append_ne_empty_left _ _ n1
  have n3 : (("device_files" ++ "/") ++ dev : String) ≠ "" := append_ne_empty_left _ _ n2
  have n4 : ((("device_files" ++ "/") ++ dev) ++ "/" : String) ≠ "" :=
    append_ne_empty_left _ _ n3
  have hrelbin : isAbsolute (output_bin dev) = false := by
    unfold output_bin output_dir joinPath
    rw [isAbsolute_append_of_ne _ _ n4, isAbsolute_append_of_ne _ _ n3,
      isAbsolute_append_of_ne _ _ n2, isAbsolute_append_of_ne _ _ n1]
    rfl
  have hrelhex : isAbsolute (output_hex dev) = false := by
    unfold output_hex output_dir joinPath
    rw [isAbsolute_append_of_ne _ _ n4, isAbsolute_append_of_ne _ _ n3,
      isAbsolute_append_of_ne _ _ n2, isAbsolute_append_of_ne _ _ n1]
    rfl
  simp only [output_bin, output_dir, joinPath, String.append_assoc] at hrelbin
  simp only [output_hex, output_dir, joinPath, String.append_assoc] at hrelhex
  refine ⟨joinPath (device_files_dir env) dev, ?_, ?_, ?_, ?_, ?_, ?_, ?_, ?_⟩
  · simp only [resolve, habsdp]
    simp [dp_json_path]
  · simp only [resolve, habswd]
    simp [wd_json_path]
  · simp only [resolve, hrelbin, Bool.false_eq_true, if_false, hcwd, joinPath, output_bin,
      output_dir, device_files_dir, String.append_assoc]
  · simp only [resolve, hrelhex, Bool.false_eq_true, if_false, hcwd, joinPath, output_hex,
      output_dir, device_files_dir, String.append_assoc]
  · rw [hw]; simp [successWorld, fsAfterRun, path_exists]
  · rw [hw]; simp [successWorld, fsAfterRun, path_exists]
  · rw [hw]; exact hbin
  · rw [hw]; exact hmfg

/-- Witness for the amended C4 at the sample environment, whose working
directory is the module directory `/app`. -/
theorem claim_C4_same_directory_witness :
    ∃ d,
      resolve sampleEnv.cwd (dp_json_path sampleEnv "D1") = joinPath d "device_profile.json" ∧
      resolve sampleEnv.cwd (wd_json_path sampleEnv "D1") = joinPath d "wireless_device.json" ∧
      resolve sampleEnv.cwd (output_bin "D1") = joinPath d ("D1" ++ "_mfg.bin") ∧
      resolve sampleEnv.cwd (output_hex "D1") = joinPath d ("D1" ++ "_mfg.hex") ∧
      path_exists sampleEnv.cwd (process_device sampleEnv sampleWorld "D1").2.fs
        (dp_json_path sampleEnv "D1") ∧
      path_exists sampleEnv.cwd (process_device sampleEnv sampleWorld "D1").2.fs
        (wd_json_path sampleEnv "D1") ∧
      path_exists sampleEnv.cwd (process_device sampleEnv sampleWorld "D1").2.fs
        (output_bin "D1") ∧
      path_exists sampleEnv.cwd (process_device sampleEnv sampleWorld "D1").2.fs
        (output_hex "D1") :=
  claim_C4_same_directory sampleEnv sampleWorld "D1" rfl (by decide) (by decide)

set_option maxHeartbeats 3000000 in
/-- Shape of an arbitrary `process_device` run: its external-call trace is a
prefix of the successful trace (for some collaborator return values), nothing
already present on disk, in the ledger or among the cloud resources is removed
or changed, every ledger row written has status `"active"`, and no event of a
stage beyond the failing stage (`failStage`) is emitted. -/
theorem run_shape (env : Env) (w : World) (dev : String) :
    ∃ wid warn tarn snr new rest,
      successEvents env dev wid warn tarn snr = new ++ rest ∧
      (process_device env w dev).2.events = w.events ++ new ∧
      (∃ t, (process_device env w dev).2.ledger = w.ledger ++ t ∧
        ∀ r ∈ t, r.status = "active") ∧
      (∀ p ∈ w.fs, p ∈ (process_device env w dev).2.fs) ∧
      (∃ t, (process_device env w dev).2.wirelessDevices = w.wirelessDevices ++ t) ∧
      (∃ t, (process_device env w dev).2.things = w.things ++ t) ∧
      (∃ t, (process_device env w dev).2.associations = w.associations ++ t) ∧
      (∀ x ∈ new, eventStage x ≤ failStage env w dev) := by
  rcases h1 : env.createWirelessDeviceResp dev with e | ⟨wid, warn⟩
  · refine ⟨"", "", "", 0, (successEvents env dev "" "" "" 0).take 1,
        (successEvents env dev "" "" "" 0).drop 1,
        (List.take_append_drop 1 _).symm, ?_, ⟨[], ?_, ?_⟩, ?_, ⟨[], ?_⟩,
        ⟨[], ?_⟩, ⟨[], ?_⟩, ?_⟩
    · simp [process_device, process_deviceR, create_sidewalk_device, store_device_info,
        create_iot_thing, associate_thing_with_sidewalk_device, get_device_profile,
        get_wireless_device, save_json_file, logEvent, provision_device, flash_device,
        successEvents, failStage, eventStage, stageNum, dp_json_path, wd_json_path,
          h1]
    · simp [process_device, process_deviceR, create_sidewalk_device, store_device_info,
        create_iot_thing, associate_thing_with_sidewalk_device, get_device_profile,
        get_wireless_device, save_json_file, logEvent, provision_device, flash_device,
        successEvents, failStage, eventStage, stageNum, dp_json_path, wd_json_path,
          h1]
    · simp
    · intro p hp
      simp [process_device, process_deviceR, create_sidewalk_device, store_device_info,
        create_iot_thing, associate_thing_with_sidewalk_device, get_device_profile,
        get_wireless_device, save_json_file, logEvent, provision_device, flash_device,
        successEvents, failStage, eventStage, stageNum, dp_json_path, wd_json_path,
          h1, hp]
    · simp [process_device, process_deviceR, create_sidewalk_device, store_device_info,
        create_iot_thing, associate_thing_with_sidewalk_device, get_device_profile,
        get_wireless_device, save_json_file, logEvent, provision_device, flash_device,
        successEvents, failStage, eventStage, stageNum, dp_json_path, wd_json_path,
          h1]
    · simp [process_device, process_deviceR, create_sidewalk_device, store_device_info,
        create_iot_thing, associate_thing_with_sidewalk_device, get_device_profile,
        get_wireless_device, save_json_file, logEvent, provision_device, flash_device,
        successEvents, failStage, eventStage, stageNum, dp_json_path, wd_json_path,
          h1]
    · simp [process_device, process_deviceR, create_sidewalk_device, store_device_info,
        create_iot_thing, associate_thing_with_sidewalk_device, get_device_profile,
        get_wireless_device, save_json_file, logEvent, provision_device, flash_device,
        successEvents, failStage, eventStage, stageNum, dp_json_path, wd_json_path,
          h1]
    · simp [process_device, process_deviceR, create_sidewalk_device, store_device_info,
        create_iot_thing, associate_thing_with_sidewalk_device, get_device_profile,
        get_wireless_device, save_json_file, logEvent, provision_device, flash_device,
        successEvents, failStage, eventStage, stageNum, dp_json_path, wd_json_path,
          h1]
  rcases h2 : env.putItemResp ⟨dev, wid, warn, none, env.now, "active"⟩ with e | u2
  · refine ⟨wid, warn, "", 0, (successEvents env dev wid warn "" 0).take 2,
        (successEvents env dev wid warn "" 0).drop 2,
        (List.take_append_drop 2 _).symm, ?_, ⟨[], ?_, ?_⟩, ?_, ⟨[(dev, wid, warn)], ?_⟩,
        ⟨[], ?_⟩, ⟨[], ?_⟩, ?_⟩
    · simp [process_device, process_deviceR, create_sidewalk_device, store_device_info,
        create_iot_thing, associate_thing_with_sidewalk_device, get_device_profile,
        get_wireless_device, save_json_file, logEvent, provision_device, flash_device,
        successEvents, failStage, eventStage, stageNum, dp_json_path, wd_json_path,
          h1, h2]
    · simp [process_device, process_deviceR, create_sidewalk_device, store_device_info,
        create_iot_thing, associate_thing_with_sidewalk_device, get_device_profile,
        get_wireless_device, save_json_file, logEvent, provision_device, flash_device,
        successEvents, failStage, eventStage, stageNum, dp_json_path, wd_json_path,
          h1, h2]
    · simp
    · intro p hp
      simp [process_device, process_deviceR, create_sidewalk_device, store_device_info,
        create_iot_thing, associate_thing_with_sidewalk_device, get_device_profile,
        get_wireless_device, save_json_file, logEvent, provision_device, flash_device,
        successEvents, failStage, eventStage, stageNum, dp_json_path, wd_json_path,
          h1, h2, hp]
    · simp [process_device, process_deviceR, create_sidewalk_device, store_device_info,
        create_iot_thing, associate_thing_with_sidewalk_device, get_device_profile,
        get_wireless_device, save_json_file, logEvent, provision_device, flash_device,
        successEvents, failStage, eventStage, stageNum, dp_json_path, wd_json_path,
          h1, h2]
    · simp [process_device, process_deviceR, create_sidewalk_device, store_device_info,
        create_iot_thing, associate_thing_with_sidewalk_device, get_device_profile,
        get_wireless_device, save_json_file, logEvent, provision_device, flash_device,
        successEvents, failStage, eventStage, stageNum, dp_json_path, wd_json_path,
          h1, h2]
    · simp [process_device, process_deviceR, create_sidewalk_device, store_device_info,
        create_iot_thing, associate_thing_with_sidewalk_device, get_device_profile,
        get_wireless_device, save_json_file, logEvent, provision_device, flash_device,
        successEvents, failStage, eventStage, stageNum, dp_json_path, wd_json_path,
          h1, h2]
    · simp [process_device, process_deviceR, create_sidewalk_device, store_device_info,
        create_iot_thing, associate_thing_with_sidewalk_device, get_device_profile,
        get_wireless_device, save_json_file, logEvent, provision_device, flash_device,
        successEvents, failStage, eventStage, stageNum, dp_json_path, wd_json_path,
          h1, h2]
  rcases h3 : env.createThingResp dev with e | tarn
  · refine ⟨wid, warn, "", 0, (successEvents env dev wid warn "" 0).take 3,
        (successEvents env dev wid warn "" 0).drop 3,
        (List.take_append_drop 3 _).symm, ?_, ⟨[(⟨dev, wid, warn, none, env.now, "active"⟩ : InventoryItem)], ?_, ?_⟩, ?_, ⟨[(dev, wid, warn)], ?_⟩,
        ⟨[], ?_⟩, ⟨[], ?_⟩, ?_⟩
    · simp [process_device, process_deviceR, create_sidewalk_device, store_device_info,
        create_iot_thing, associate_thing_with_sidewalk_device, get_device_profile,
        get_wireless_device, save_json_file, logEvent, provision_device, flash_device,
        successEvents, failStage, eventStage, stageNum, dp_json_path, wd_json_path,
          h1, h2, h3]
    · simp [process_device, process_deviceR, create_sidewalk_device, store_device_info,
        create_iot_thing, associate_thing_with_sidewalk_device, get_device_profile,
        get_wireless_device, save_json_file, logEvent, provision_device, flash_device,
        successEvents, failStage, eventStage, stageNum, dp_json_path, wd_json_path,
          h1, h2, h3]
    · simp
    · intro p hp
      simp [process_device, process_deviceR, create_sidewalk_device, store_device_info,
        create_iot_thing, associate_thing_with_sidewalk_device, get_device_profile,
        get_wireless_device, save_json_file, logEvent, provision_device, flash_device,
        successEvents, failStage, eventStage, stageNum, dp_json_path, wd_json_path,
          h1, h2, h3, hp]
    · simp [process_device, process_deviceR, create_sidewalk_device, store_device_info,
        create_iot_thing, associate_thing_with_sidewalk_device, get_device_profile,
        get_wireless_device, save_json_file, logEvent, provision_device, flash_device,
        successEvents, failStage, eventStage, stageNum, dp_json_path, wd_json_path,
          h1, h2, h3]
    · simp [process_device, process_deviceR, create_sidewalk_device, store_device_info,
        create_iot_thing, associate_thing_with_sidewalk_device, get_device_profile,
        get_wireless_device, save_json_file, logEvent, provision_device, flash_device,
        successEvents, failStage, eventStage, stageNum, dp_json_path, wd_json_path,
          h1, h2, h3]
    · simp [process_device, process_deviceR, create_sidewalk_device, store_device_info,
        create_iot_thing, associate_thing_with_sidewalk_device, get_device_profile,
        get_wireless_device, save_json_file, logEvent, provision_device, flash_device,
        successEvents, failStage, eventStage, stageNum, dp_json_path, wd_json_path,
          h1, h2, h3]
    · simp [process_device, process_deviceR, create_sidewalk_device, store_device_info,
        create_iot_thing, associate_thing_with_sidewalk_device, get_device_profile,
        get_wireless_device, save_json_file, logEvent, provision_device, flash_device,
        successEvents, failStage, eventStage, stageNum, dp_json_path, wd_json_path,
          h1, h2, h3]
  rcases h4 : env.associateResp tarn wid with e | u4
  · refine ⟨wid, warn, tarn, 0, (successEvents env dev wid warn tarn 0).take 4,
        (successEvents env dev wid warn tarn 0).drop 4,
        (List.take_append_drop 4 _).symm, ?_, ⟨[(⟨dev, wid, warn, none, env.now, "active"⟩ : InventoryItem)], ?_, ?_⟩, ?_, ⟨[(dev, wid, warn)], ?_⟩,
        ⟨[(dev, tarn)], ?_⟩, ⟨[], ?_⟩, ?_⟩
    · simp [process_device, process_deviceR, create_sidewalk_device, store_device_info,
        create_iot_thing, associate_thing_with_sidewalk_device, get_device_profile,
        get_wireless_device, save_json_file, logEvent, provision_device, flash_device,
        successEvents, failStage, eventStage, stageNum, dp_json_path, wd_json_path,
          h1, h2, h3, h4]
    · simp [process_device, process_deviceR, create_sidewalk_device, store_device_info,
        create_iot_thing, associate_thing_with_sidewalk_device, get_device_profile,
        get_wireless_device, save_json_file, logEvent, provision_device, flash_device,
        successEvents, failStage, eventStage, stageNum, dp_json_path, wd_json_path,
          h1, h2, h3, h4]
    · simp
    · intro p hp
      simp [process_device, process_deviceR, create_sidewalk_device, store_device_info,
        create_iot_thing, associate_thing_with_sidewalk_device, get_device_profile,
        get_wireless_device, save_json_file, logEvent, provision_device, flash_device,
        successEvents, failStage, eventStage, stageNum, dp_json_path, wd_json_path,
          h1, h2, h3, h4, hp]
    · simp [process_device, process_deviceR, create_sidewalk_device, store_device_info,
        create_iot_thing, associate_thing_with_sidewalk_device, get_device_profile,
        get_wireless_device, save_json_file, logEvent, provision_device, flash_device,
        successEvents, failStage, eventStage, stageNum, dp_json_path, wd_json_path,
          h1, h2, h3, h4]
    · simp [process_device, process_deviceR, create_sidewalk_device, store_device_info,
        create_iot_thing, associate_thing_with_sidewalk_device, get_device_profile,
        get_wireless_device, save_json_file, logEvent, provision_device, flash_device,
        successEvents, failStage, eventStage, stageNum, dp_json_path, wd_json_path,
          h1, h2, h3, h4]
    · simp [process_device, process_deviceR, create_sidewalk_device, store_device_info,
        create_iot_thing, associate_thing_with_sidewalk_device, get_device_profile,
        get_wireless_device, save_json_file, logEvent, provision_device, flash_device,
        successEvents, failStage, eventStage, stageNum, dp_json_path, wd_json_path,
          h1, h2, h3, h4]
    · simp [process_device, process_deviceR, create_sidewalk_device, store_device_info,
        create_iot_thing, associate_thing_with_sidewalk_device, get_device_profile,
        get_wireless_device, save_json_file, logEvent, provision_device, flash_device,
        successEvents, failStage, eventStage, stageNum, dp_json_path, wd_json_path,
          h1, h2, h3, h4]
  rcases h5 : env.putItemResp ⟨dev, wid, warn, some tarn, env.now, "active"⟩ with e | u5
  · refine ⟨wid, warn, tarn, 0, (successEvents env dev wid warn tarn 0).take 5,
        (successEvents env dev wid warn tarn 0).drop 5,
        (List.take_append_drop 5 _).symm, ?_, ⟨[(⟨dev, wid, warn, none, env.now, "active"⟩ : InventoryItem)], ?_, ?_⟩, ?_, ⟨[(dev, wid, warn)], ?_⟩,
        ⟨[(dev, tarn)], ?_⟩, ⟨[(tarn, wid)], ?_⟩, ?_⟩
    · simp [process_device, process_deviceR, create_sidewalk_device, store_device_info,
        create_iot_thing, associate_thing_with_sidewalk_device, get_device_profile,
        get_wireless_device, save_json_file, logEvent, provision_device, flash_device,
        successEvents, failStage, eventStage, stageNum, dp_json_path, wd_json_path,
          h1, h2, h3, h4, h5]
    · simp [process_device, process_deviceR, create_sidewalk_device, store_device_info,
        create_iot_thing, associate_thing_with_sidewalk_device, get_device_profile,
        get_wireless_device, save_json_file, logEvent, provision_device, flash_device,
        successEvents, failStage, eventStage, stageNum, dp_json_path, wd_json_path,
          h1, h2, h3, h4, h5]
    · simp
    · intro p hp
      simp [process_device, process_deviceR, create_sidewalk_device, store_device_info,
        create_iot_thing, associate_thing_with_sidewalk_device, get_device_profile,
        get_wireless_device, save_json_file, logEvent, provision_device, flash_device,
        successEvents, failStage, eventStage, stageNum, dp_json_path, wd_json_path,
          h1, h2, h3, h4, h5, hp]
    · simp [process_device, process_deviceR, create_sidewalk_device, store_device_info,
        create_iot_thing, associate_thing_with_sidewalk_device, get_device_profile,
        get_wireless_device, save_json_file, logEvent, provision_device, flash_device,
        successEvents, failStage, eventStage, stageNum, dp_json_path, wd_json_path,
          h1, h2, h3, h4, h5]
    · simp [process_device, process_deviceR, create_sidewalk_device, store_device_info,
        create_iot_thing, associate_thing_with_sidewalk_device, get_device_profile,
        get_wireless_device, save_json_file, logEvent, provision_device, flash_device,
        successEvents, failStage, eventStage, stageNum, dp_json_path, wd_json_path,
          h1, h2, h3, h4, h5]
    · simp [process_device, process_deviceR, create_sidewalk_device, store_device_info,
        create_iot_thing, associate_thing_with_sidewalk_device, get_device_profile,
        get_wireless_device, save_json_file, logEvent, provision_device, flash_device,
        successEvents, failStage, eventStage, stageNum, dp_json_path, wd_json_path,
          h1, h2, h3, h4, h5]
    · simp [process_device, process_deviceR, create_sidewalk_device, store_device_info,
        create_iot_thing, associate_thing_with_sidewalk_device, get_device_profile,
        get_wireless_device, save_json_file, logEvent, provision_device, flash_device,
        successEvents, failStage, eventStage, stageNum, dp_json_path, wd_json_path,
          h1, h2, h3, h4, h5]
  rcases h6 : env.getDeviceProfileResp env.profileId with e | dp
  · refine ⟨wid, warn, tarn, 0, (successEvents env dev wid warn tarn 0).take 6,
        (successEvents env dev wid warn tarn 0).drop 6,
        (List.take_append_drop 6 _).symm, ?_, ⟨[(⟨dev, wid, warn, none, env.now, "active"⟩ : InventoryItem), (⟨dev, wid, warn, some tarn, env.now, "active"⟩ : InventoryItem)], ?_, ?_⟩, ?_, ⟨[(dev, wid, warn)], ?_⟩,
        ⟨[(dev, tarn)], ?_⟩, ⟨[(tarn, wid)], ?_⟩, ?_⟩
    · simp [process_device, process_deviceR, create_sidewalk_device, store_device_info,
        create_iot_thing, associate_thing_with_sidewalk_device, get_device_profile,
        get_wireless_device, save_json_file, logEvent, provision_device, flash_device,
        successEvents, failStage, eventStage, stageNum, dp_json_path, wd_json_path,
          h1, h2, h3, h4, h5, h6]
    · simp [process_device, process_deviceR, create_sidewalk_device, store_device_info,
        create_iot_thing, associate_thing_with_sidewalk_device, get_device_profile,
        get_wireless_device, save_json_file, logEvent, provision_device, flash_device,
        successEvents, failStage, eventStage, stageNum, dp_json_path, wd_json_path,
          h1, h2, h3, h4, h5, h6]
    · simp
    · intro p hp
      simp [process_device, process_deviceR, create_sidewalk_device, store_device_info,
        create_iot_thing, associate_thing_with_sidewalk_device, get_device_profile,
        get_wireless_device, save_json_file, logEvent, provision_device, flash_device,
        successEvents, failStage, eventStage, stageNum, dp_json_path, wd_json_path,
          h1, h2, h3, h4, h5, h6, hp]
    · simp [process_device, process_deviceR, create_sidewalk_device, store_device_info,
        create_iot_thing, associate_thing_with_sidewalk_device, get_device_profile,
        get_wireless_device, save_json_file, logEvent, provision_device, flash_device,
        successEvents, failStage, eventStage, stageNum, dp_json_path, wd_json_path,
          h1, h2, h3, h4, h5, h6]
    · simp [process_device, process_deviceR, create_sidewalk_device, store_device_info,
        create_iot_thing, associate_thing_with_sidewalk_device, get_device_profile,
        get_wireless_device, save_json_file, logEvent, provision_device, flash_device,
        successEvents, failStage, eventStage, stageNum, dp_json_path, wd_json_path,
          h1, h2, h3, h4, h5, h6]
    · simp [process_device, process_deviceR, create_sidewalk_device, store_device_info,
        create_iot_thing, associate_thing_with_sidewalk_device, get_device_profile,
        get_wireless_device, save_json_file, logEvent, provision_device, flash_device,
        successEvents, failStage, eventStage, stageNum, dp_json_path, wd_json_path,
          h1, h2, h3, h4, h5, h6]
    · simp [process_device, process_deviceR, create_sidewalk_device, store_device_info,
        create_iot_thing, associate_thing_with_sidewalk_device, get_device_profile,
        get_wireless_device, save_json_file, logEvent, provision_device, flash_device,
        successEvents, failStage, eventStage, stageNum, dp_json_path, wd_json_path,
          h1, h2, h3, h4, h5, h6]
  rcases h7 : env.getWirelessDeviceResp wid with e | wd
  · refine ⟨wid, warn, tarn, 0, (successEvents env dev wid warn tarn 0).take 7,
        (successEvents env dev wid warn tarn 0).drop 7,
        (List.take_append_drop 7 _).symm, ?_, ⟨[(⟨dev, wid, warn, none, env.now, "active"⟩ : InventoryItem), (⟨dev, wid, warn, some tarn, env.now, "active"⟩ : InventoryItem)], ?_, ?_⟩, ?_, ⟨[(dev, wid, warn)], ?_⟩,
        ⟨[(dev, tarn)], ?_⟩, ⟨[(tarn, wid)], ?_⟩, ?_⟩
    · simp [process_device, process_deviceR, create_sidewalk_device, store_device_info,
        create_iot_thing, associate_thing_with_sidewalk_device, get_device_profile,
        get_wireless_device, save_json_file, logEvent, provision_device, flash_device,
        successEvents, failStage, eventStage, stageNum, dp_json_path, wd_json_path,
          h1, h2, h3, h4, h5, h6, h7]
    · simp [process_device, process_deviceR, create_sidewalk_device, store_device_info,
        create_iot_thing, associate_thing_with_sidewalk_device, get_device_profile,
        get_wireless_device, save_json_file, logEvent, provision_device, flash_device,
        successEvents, failStage, eventStage, stageNum, dp_json_path, wd_json_path,
          h1, h2, h3, h4, h5, h6, h7]
    · simp
    · intro p hp
      simp [process_device, process_deviceR, create_sidewalk_device, store_device_info,
        create_iot_thing, associate_thing_with_sidewalk_device, get_device_profile,
        get_wireless_device, save_json_file, logEvent, provision_device, flash_device,
        successEvents, failStage, eventStage, stageNum, dp_json_path, wd_json_path,
          h1, h2, h3, h4, h5, h6, h7, hp]
    · simp [process_device, process_deviceR, create_sidewalk_device, store_device_info,
        create_iot_thing, associate_thing_with_sidewalk_device, get_device_profile,
        get_wireless_device, save_json_file, logEvent, provision_device, flash_device,
        successEvents, failStage, eventStage, stageNum, dp_json_path, wd_json_path,
          h1, h2, h3, h4, h5, h6, h7]
    · simp [process_device, process_deviceR, create_sidewalk_device, store_device_info,
        create_iot_thing, associate_thing_with_sidewalk_device, get_device_profile,
        get_wireless_device, save_json_file, logEvent, provision_device, flash_device,
        successEvents, failStage, eventStage, stageNum, dp_json_path, wd_json_path,
          h1, h2, h3, h4, h5, h6, h7]
    · simp [process_device, process_deviceR, create_sidewalk_device, store_device_info,
        create_iot_thing, associate_thing_with_sidewalk_device, get_device_profile,
        get_wireless_device, save_json_file, logEvent, provision_device, flash_device,
        successEvents, failStage, eventStage, stageNum, dp_json_path, wd_json_path,
          h1, h2, h3, h4, h5, h6, h7]
    · simp [process_device, process_deviceR, create_sidewalk_device, store_device_info,
        create_iot_thing, associate_thing_with_sidewalk_device, get_device_profile,
        get_wireless_device, save_json_file, logEvent, provision_device, flash_device,
        successEvents, failStage, eventStage, stageNum, dp_json_path, wd_json_path,
          h1, h2, h3, h4, h5, h6, h7]
  rcases h8 : env.saveResp (joinPath (joinPath (device_files_dir env) dev)
      "device_profile.json") with e | u8
  · refine ⟨wid, warn, tarn, 0, (successEvents env dev wid warn tarn 0).take 8,
        (successEvents env dev wid warn tarn 0).drop 8,
        (List.take_append_drop 8 _).symm, ?_, ⟨[(⟨dev, wid, warn, none, env.now, "active"⟩ : InventoryItem), (⟨dev, wid, warn, some tarn, env.now, "active"⟩ : InventoryItem)], ?_, ?_⟩, ?_, ⟨[(dev, wid, warn)], ?_⟩,
        ⟨[(dev, tarn)], ?_⟩, ⟨[(tarn, wid)], ?_⟩, ?_⟩
    · simp [process_device, process_deviceR, create_sidewalk_device, store_device_info,
        create_iot_thing, associate_thing_with_sidewalk_device, get_device_profile,
        get_wireless_device, save_json_file, logEvent, provision_device, flash_device,
        successEvents, failStage, eventStage, stageNum, dp_json_path, wd_json_path,
          h1, h2, h3, h4, h5, h6, h7, h8]
    · simp [process_device, process_deviceR, create_sidewalk_device, store_device_info,
        create_iot_thing, associate_thing_with_sidewalk_device, get_device_profile,
        get_wireless_device, save_json_file, logEvent, provision_device, flash_device,
        successEvents, failStage, eventStage, stageNum, dp_json_path, wd_json_path,
          h1, h2, h3, h4, h5, h6, h7, h8]
    · simp
    · intro p hp
      simp [process_device, process_deviceR, create_sidewalk_device, store_device_info,
        create_iot_thing, associate_thing_with_sidewalk_device, get_device_profile,
        get_wireless_device, save_json_file, logEvent, provision_device, flash_device,
        successEvents, failStage, eventStage, stageNum, dp_json_path, wd_json_path,
          h1, h2, h3, h4, h5, h6, h7, h8, hp]
    · simp [process_device, process_deviceR, create_sidewalk_device, store_device_info,
        create_iot_thing, associate_thing_with_sidewalk_device, get_device_profile,
        get_wireless_device, save_json_file, logEvent, provision_device, flash_device,
        successEvents, failStage, eventStage, stageNum, dp_json_path, wd_json_path,
          h1, h2, h3, h4, h5, h6, h7, h8]
    · simp [process_device, process_deviceR, create_sidewalk_device, store_device_info,
        create_iot_thing, associate_thing_with_sidewalk_device, get_device_profile,
        get_wireless_device, save_json_file, logEvent, provision_device, flash_device,
        successEvents, failStage, eventStage, stageNum, dp_json_path, wd_json_path,
          h1, h2, h3, h4, h5, h6, h7, h8]
    · simp [process_device, process_deviceR, create_sidewalk_device, store_device_info,
        create_iot_thing, associate_thing_with_sidewalk_device, get_device_profile,
        get_wireless_device, save_json_file, logEvent, provision_device, flash_device,
        successEvents, failStage, eventStage, stageNum, dp_json_path, wd_json_path,
          h1, h2, h3, h4, h5, h6, h7, h8]
    · simp [process_device, process_deviceR, create_sidewalk_device, store_device_info,
        create_iot_thing, associate_thing_with_sidewalk_device, get_device_profile,
        get_wireless_device, save_json_file, logEvent, provision_device, flash_device,
        successEvents, failStage, eventStage, stageNum, dp_json_path, wd_json_path,
          h1, h2, h3, h4, h5, h6, h7, h8]
  rcases h9 : env.saveResp (joinPath (joinPath (device_files_dir env) dev)
      "wireless_device.json") with e | u9
  · refine ⟨wid, warn, tarn, 0, (successEvents env dev wid warn tarn 0).take 9,
        (successEvents env dev wid warn tarn 0).drop 9,
        (List.take_append_drop 9 _).symm, ?_, ⟨[(⟨dev, wid, warn, none, env.now, "active"⟩ : InventoryItem), (⟨dev, wid, warn, some tarn, env.now, "active"⟩ : InventoryItem)], ?_, ?_⟩, ?_, ⟨[(dev, wid, warn)], ?_⟩,
        ⟨[(dev, tarn)], ?_⟩, ⟨[(tarn, wid)], ?_⟩, ?_⟩
    · simp [process_device, process_deviceR, create_sidewalk_device, store_device_info,
        create_iot_thing, associate_thing_with_sidewalk_device, get_device_profile,
        get_wireless_device, save_json_file, logEvent, provision_device, flash_device,
        successEvents, failStage, eventStage, stageNum, dp_json_path, wd_json_path,
          h1, h2, h3, h4, h5, h6, h7, h8, h9]
    · simp [process_device, process_deviceR, create_sidewalk_device, store_device_info,
        create_iot_thing, associate_thing_with_sidewalk_device, get_device_profile,
        get_wireless_device, save_json_file, logEvent, provision_device, flash_device,
        successEvents, failStage, eventStage, stageNum, dp_json_path, wd_json_path,
          h1, h2, h3, h4, h5, h6, h7, h8, h9]
    · simp
    · intro p hp
      simp [process_device, process_deviceR, create_sidewalk_device, store_device_info,
        create_iot_thing, associate_thing_with_sidewalk_device, get_device_profile,
        get_wireless_device, save_json_file, logEvent, provision_device, flash_device,
        successEvents, failStage, eventStage, stageNum, dp_json_path, wd_json_path,
          h1, h2, h3, h4, h5, h6, h7, h8, h9, hp]
    · simp [process_device, process_deviceR, create_sidewalk_device, store_device_info,
        create_iot_thing, associate_thing_with_sidewalk_device, get_device_profile,
        get_wireless_device, save_json_file, logEvent, provision_device, flash_device,
        successEvents, failStage, eventStage, stageNum, dp_json_path, wd_json_path,
          h1, h2, h3, h4, h5, h6, h7, h8, h9]
    · simp [process_device, process_deviceR, create_sidewalk_device, store_device_info,
        create_iot_thing, associate_thing_with_sidewalk_device, get_device_profile,
        get_wireless_device, save_json_file, logEvent, provision_device, flash_device,
        successEvents, failStage, eventStage, stageNum, dp_json_path, wd_json_path,
          h1, h2, h3, h4, h5, h6, h7, h8, h9]
    · simp [process_device, process_deviceR, create_sidewalk_device, store_device_info,
        create_iot_thing, associate_thing_with_sidewalk_device, get_device_profile,
        get_wireless_device, save_json_file, logEvent, provision_device, flash_device,
        successEvents, failStage, eventStage, stageNum, dp_json_path, wd_json_path,
          h1, h2, h3, h4, h5, h6, h7, h8, h9]
    · simp [process_device, process_deviceR, create_sidewalk_device, store_device_info,
        create_iot_thing, associate_thing_with_sidewalk_device, get_device_profile,
        get_wireless_device, save_json_file, logEvent, provision_device, flash_device,
        successEvents, failStage, eventStage, stageNum, dp_json_path, wd_json_path,
          h1, h2, h3, h4, h5, h6, h7, h8, h9]
  by_cases h10 : env.toolExit = 0
  case neg =>
    refine ⟨wid, warn, tarn, 0, (successEvents env dev wid warn tarn 0).take 10,
        (successEvents env dev wid warn tarn 0).drop 10,
        (List.take_append_drop 10 _).symm, ?_, ⟨[(⟨dev, wid, warn, none, env.now, "active"⟩ : InventoryItem), (⟨dev, wid, warn, some tarn, env.now, "active"⟩ : InventoryItem)], ?_, ?_⟩, ?_, ⟨[(dev, wid, warn)], ?_⟩,
        ⟨[(dev, tarn)], ?_⟩, ⟨[(tarn, wid)], ?_⟩, ?_⟩
    · simp [process_device, process_deviceR, create_sidewalk_device, store_device_info,
        create_iot_thing, associate_thing_with_sidewalk_device, get_device_profile,
        get_wireless_device, save_json_file, logEvent, provision_device, flash_device,
        successEvents, failStage, eventStage, stageNum, dp_json_path, wd_json_path,
          h1, h2, h3, h4, h5, h6, h7, h8, h9, h10]
    · simp [process_device, process_deviceR, create_sidewalk_device, store_device_info,
        create_iot_thing, associate_thing_with_sidewalk_device, get_device_profile,
        get_wireless_device, save_json_file, logEvent, provision_device, flash_device,
        successEvents, failStage, eventStage, stageNum, dp_json_path, wd_json_path,
          h1, h2, h3, h4, h5, h6, h7, h8, h9, h10]
    · simp
    · intro p hp
      simp [process_device, process_deviceR, create_sidewalk_device, store_device_info,
        create_iot_thing, associate_thing_with_sidewalk_device, get_device_profile,
        get_wireless_device, save_json_file, logEvent, provision_device, flash_device,
        successEvents, failStage, eventStage, stageNum, dp_json_path, wd_json_path,
          h1, h2, h3, h4, h5, h6, h7, h8, h9, h10, hp]
    · simp [process_device, process_deviceR, create_sidewalk_device, store_device_info,
        create_iot_thing, associate_thing_with_sidewalk_device, get_device_profile,
        get_wireless_device, save_json_file, logEvent, provision_device, flash_device,
        successEvents, failStage, eventStage, stageNum, dp_json_path, wd_json_path,
          h1, h2, h3, h4, h5, h6, h7, h8, h9, h10]
    · simp [process_device, process_deviceR, create_sidewalk_device, store_device_info,
        create_iot_thing, associate_thing_with_sidewalk_device, get_device_profile,
        get_wireless_device, save_json_file, logEvent, provision_device, flash_device,
        successEvents, failStage, eventStage, stageNum, dp_json_path, wd_json_path,
          h1, h2, h3, h4, h5, h6, h7, h8, h9, h10]
    · simp [process_device, process_deviceR, create_sidewalk_device, store_device_info,
        create_iot_thing, associate_thing_with_sidewalk_device, get_device_profile,
        get_wireless_device, save_json_file, logEvent, provision_device, flash_device,
        successEvents, failStage, eventStage, stageNum, dp_json_path, wd_json_path,
          h1, h2, h3, h4, h5, h6, h7, h8, h9, h10]
    · simp [process_device, process_deviceR, create_sidewalk_device, store_device_info,
        create_iot_thing, associate_thing_with_sidewalk_device, get_device_profile,
        get_wireless_device, save_json_file, logEvent, provision_device, flash_device,
        successEvents, failStage, eventStage, stageNum, dp_json_path, wd_json_path,
          h1, h2, h3, h4, h5, h6, h7, h8, h9, h10]
  by_cases h11 : path_exists env.cwd (fsAfterRun env w dev) (output_bin dev)
  case neg =>
    simp only [fsAfterRun, dp_json_path, wd_json_path, List.append_assoc] at h11
    refine ⟨wid, warn, tarn, 0, (successEvents env dev wid warn tarn 0).take 10,
        (successEvents env dev wid warn tarn 0).drop 10,
        (List.take_append_drop 10 _).symm, ?_, ⟨[(⟨dev, wid, warn, none, env.now, "active"⟩ : InventoryItem), (⟨dev, wid, warn, some tarn, env.now, "active"⟩ : InventoryItem)], ?_, ?_⟩, ?_, ⟨[(dev, wid, warn)], ?_⟩,
        ⟨[(dev, tarn)], ?_⟩, ⟨[(tarn, wid)], ?_⟩, ?_⟩
    · simp [process_device, process_deviceR, create_sidewalk_device, store_device_info,
        create_iot_thing, associate_thing_with_sidewalk_device, get_device_profile,
        get_wireless_device, save_json_file, logEvent, provision_device, flash_device,
        successEvents, failStage, eventStage, stageNum, dp_json_path, wd_json_path,
          h1, h2, h3, h4, h5, h6, h7, h8, h9, h10, h11]
    · simp [process_device, process_deviceR, create_sidewalk_device, store_device_info,
        create_iot_thing, associate_thing_with_sidewalk_device, get_device_profile,
        get_wireless_device, save_json_file, logEvent, provision_device, flash_device,
        successEvents, failStage, eventStage, stageNum, dp_json_path, wd_json_path,
          h1, h2, h3, h4, h5, h6, h7, h8, h9, h10, h11]
    · simp
    · intro p hp
      simp [process_device, process_deviceR, create_sidewalk_device, store_device_info,
        create_iot_thing, associate_thing_with_sidewalk_device, get_device_profile,
        get_wireless_device, save_json_file, logEvent, provision_device, flash_device,
        successEvents, failStage, eventStage, stageNum, dp_json_path, wd_json_path,
          h1, h2, h3, h4, h5, h6, h7, h8, h9, h10, h11, hp]
    · simp [process_device, process_deviceR, create_sidewalk_device, store_device_info,
        create_iot_thing, associate_thing_with_sidewalk_device, get_device_profile,
        get_wireless_device, save_json_file, logEvent, provision_device, flash_device,
        successEvents, failStage, eventStage, stageNum, dp_json_path, wd_json_path,
          h1, h2, h3, h4, h5, h6, h7, h8, h9, h10, h11]
    · simp [process_device, process_deviceR, create_sidewalk_device, store_device_info,
        create_iot_thing, associate_thing_with_sidewalk_device, get_device_profile,
        get_wireless_device, save_json_file, logEvent, provision_device, flash_device,
        successEvents, failStage, eventStage, stageNum, dp_json_path, wd_json_path,
          h1, h2, h3, h4, h5, h6, h7, h8, h9, h10, h11]
    · simp [process_device, process_deviceR, create_sidewalk_device, store_device_info,
        create_iot_thing, associate_thing_with_sidewalk_device, get_device_profile,
        get_wireless_device, save_json_file, logEvent, provision_device, flash_device,
        successEvents, failStage, eventStage, stageNum, dp_json_path, wd_json_path,
          h1, h2, h3, h4, h5, h6, h7, h8, h9, h10, h11]
    · simp [process_device, process_deviceR, create_sidewalk_device, store_device_info,
        create_iot_thing, associate_thing_with_sidewalk_device, get_device_profile,
        get_wireless_device, save_json_file, logEvent, provision_device, flash_device,
        successEvents, failStage, eventStage, stageNum, dp_json_path, wd_json_path,
          h1, h2, h3, h4, h5, h6, h7, h8, h9, h10, h11]
  by_cases h12 : path_exists env.cwd (fsAfterRun env w dev) (mfg_hex_path dev)
  case neg =>
    simp only [fsAfterRun, dp_json_path, wd_json_path, List.append_assoc] at h11 h12
    refine ⟨wid, warn, tarn, 0, (successEvents env dev wid warn tarn 0).take 10,
        (successEvents env dev wid warn tarn 0).drop 10,
        (List.take_append_drop 10 _).symm, ?_, ⟨[(⟨dev, wid, warn, none, env.now, "active"⟩ : InventoryItem), (⟨dev, wid, warn, some tarn, env.now, "active"⟩ : InventoryItem)], ?_, ?_⟩, ?_, ⟨[(dev, wid, warn)], ?_⟩,
        ⟨[(dev, tarn)], ?_⟩, ⟨[(tarn, wid)], ?_⟩, ?_⟩
    · simp [process_device, process_deviceR, create_sidewalk_device, store_device_info,
        create_iot_thing, associate_thing_with_sidewalk_device, get_device_profile,
        get_wireless_device, save_json_file, logEvent, provision_device, flash_device,
        successEvents, failStage, eventStage, stageNum, dp_json_path, wd_json_path,
          h1, h2, h3, h4, h5, h6, h7, h8, h9, h10, h11, h12]
    · simp [process_device, process_deviceR, create_sidewalk_device, store_device_info,
        create_iot_thing, associate_thing_with_sidewalk_device, get_device_profile,
        get_wireless_device, save_json_file, logEvent, provision_device, flash_device,
        successEvents, failStage, eventStage, stageNum, dp_json_path, wd_json_path,
          h1, h2, h3, h4, h5, h6, h7, h8, h9, h10, h11, h12]
    · simp
    · intro p hp
      simp [process_device, process_deviceR, create_sidewalk_device, store_device_info,
        create_iot_thing, associate_thing_with_sidewalk_device, get_device_profile,
        get_wireless_device, save_json_file, logEvent, provision_device, flash_device,
        successEvents, failStage, eventStage, stageNum, dp_json_path, wd_json_path,
          h1, h2, h3, h4, h5, h6, h7, h8, h9, h10, h11, h12, hp]
    · simp [process_device, process_deviceR, create_sidewalk_device, store_device_info,
        create_iot_thing, associate_thing_with_sidewalk_device, get_device_profile,
        get_wireless_device, save_json_file, logEvent, provision_device, flash_device,
        successEvents, failStage, eventStage, stageNum, dp_json_path, wd_json_path,
          h1, h2, h3, h4, h5, h6, h7, h8, h9, h10, h11, h12]
    · simp [process_device, process_deviceR, create_sidewalk_device, store_device_info,
        create_iot_thing, associate_thing_with_sidewalk_device, get_device_profile,
        get_wireless_device, save_json_file, logEvent, provision_device, flash_device,
        successEvents, failStage, eventStage, stageNum, dp_json_path, wd_json_path,
          h1, h2, h3, h4, h5, h6, h7, h8, h9, h10, h11, h12]
    · simp [process_device, process_deviceR, create_sidewalk_device, store_device_info,
        create_iot_thing, associate_thing_with_sidewalk_device, get_device_profile,
        get_wireless_device, save_json_file, logEvent, provision_device, flash_device,
        successEvents, failStage, eventStage, stageNum, dp_json_path, wd_json_path,
          h1, h2, h3, h4, h5, h6, h7, h8, h9, h10, h11, h12]
    · simp [process_device, process_deviceR, create_sidewalk_device, store_device_info,
        create_iot_thing, associate_thing_with_sidewalk_device, get_device_profile,
        get_wireless_device, save_json_file, logEvent, provision_device, flash_device,
        successEvents, failStage, eventStage, stageNum, dp_json_path, wd_json_path,
          h1, h2, h3, h4, h5, h6, h7, h8, h9, h10, h11, h12]
  by_cases h13 : path_exists env.cwd (fsAfterRun env w dev) env.firmwareHexPath
  case neg =>
    simp only [fsAfterRun, dp_json_path, wd_json_path, List.append_assoc] at h11 h12 h13
    refine ⟨wid, warn, tarn, 0, (successEvents env dev wid warn tarn 0).take 10,
        (successEvents env dev wid warn tarn 0).drop 10,
        (List.take_append_drop 10 _).symm, ?_, ⟨[(⟨dev, wid, warn, none, env.now, "active"⟩ : InventoryItem), (⟨dev, wid, warn, some tarn, env.now, "active"⟩ : InventoryItem)], ?_, ?_⟩, ?_, ⟨[(dev, wid, warn)], ?_⟩,
        ⟨[(dev, tarn)], ?_⟩, ⟨[(tarn, wid)], ?_⟩, ?_⟩
    · simp [process_device, process_deviceR, create_sidewalk_device, store_device_info,
        create_iot_thing, associate_thing_with_sidewalk_device, get_device_profile,
        get_wireless_device, save_json_file, logEvent, provision_device, flash_device,
        successEvents, failStage, eventStage, stageNum, dp_json_path, wd_json_path,
          h1, h2, h3, h4, h5, h6, h7, h8, h9, h10, h11, h12, h13]
    · simp [process_device, process_deviceR, create_sidewalk_device, store_device_info,
        create_iot_thing, associate_thing_with_sidewalk_device, get_device_profile,
        get_wireless_device, save_json_file, logEvent, provision_device, flash_device,
        successEvents, failStage, eventStage, stageNum, dp_json_path, wd_json_path,
          h1, h2, h3, h4, h5, h6, h7, h8, h9, h10, h11, h12, h13]
    · simp
    · intro p hp
      simp [process_device, process_deviceR, create_sidewalk_device, store_device_info,
        create_iot_thing, associate_thing_with_sidewalk_device, get_device_profile,
        get_wireless_device, save_json_file, logEvent, provision_device, flash_device,
        successEvents, failStage, eventStage, stageNum, dp_json_path, wd_json_path,
          h1, h2, h3, h4, h5, h6, h7, h8, h9, h10, h11, h12, h13, hp]
    · simp [process_device, process_deviceR, create_sidewalk_device, store_device_info,
        create_iot_thing, associate_thing_with_sidewalk_device, get_device_profile,
        get_wireless_device, save_json_file, logEvent, provision_device, flash_device,
        successEvents, failStage, eventStage, stageNum, dp_json_path, wd_json_path,
          h1, h2, h3, h4, h5, h6, h7, h8, h9, h10, h11, h12, h13]
    · simp [process_device, process_deviceR, create_sidewalk_device, store_device_info,
        create_iot_thing, associate_thing_with_sidewalk_device, get_device_profile,
        get_wireless_device, save_json_file, logEvent, provision_device, flash_device,
        successEvents, failStage, eventStage, stageNum, dp_json_path, wd_json_path,
          h1, h2, h3, h4, h5, h6, h7, h8, h9, h10, h11, h12, h13]
    · simp [process_device, process_deviceR, create_sidewalk_device, store_device_info,
        create_iot_thing, associate_thing_with_sidewalk_device, get_device_profile,
        get_wireless_device, save_json_file, logEvent, provision_device, flash_device,
        successEvents, failStage, eventStage, stageNum, dp_json_path, wd_json_path,
          h1, h2, h3, h4, h5, h6, h7, h8, h9, h10, h11, h12, h13]
    · simp [process_device, process_deviceR, create_sidewalk_device, store_device_info,
        create_iot_thing, associate_thing_with_sidewalk_device, get_device_profile,
        get_wireless_device, save_json_file, logEvent, provision_device, flash_device,
        successEvents, failStage, eventStage, stageNum, dp_json_path, wd_json_path,
          h1, h2, h3, h4, h5, h6, h7, h8, h9, h10, h11, h12, h13]
  rcases h14 : env.probeSerials with _ | ⟨snr, rest⟩
  · simp only [fsAfterRun, dp_json_path, wd_json_path, List.append_assoc] at h11 h12 h13
    refine ⟨wid, warn, tarn, 0, (successEvents env dev wid warn tarn 0).take 12,
        (successEvents env dev wid warn tarn 0).drop 12,
        (List.take_append_drop 12 _).symm, ?_, ⟨[(⟨dev, wid, warn, none, env.now, "active"⟩ : InventoryItem), (⟨dev, wid, warn, some tarn, env.now, "active"⟩ : InventoryItem)], ?_, ?_⟩, ?_, ⟨[(dev, wid, warn)], ?_⟩,
        ⟨[(dev, tarn)], ?_⟩, ⟨[(tarn, wid)], ?_⟩, ?_⟩
    · simp [process_device, process_deviceR, create_sidewalk_device, store_device_info,
        create_iot_thing, associate_thing_with_sidewalk_device, get_device_profile,
        get_wireless_device, save_json_file, logEvent, provision_device, flash_device,
        successEvents, failStage, eventStage, stageNum, dp_json_path, wd_json_path,
          h1, h2, h3, h4, h5, h6, h7, h8, h9, h10, h11, h12, h13, h14]
    · simp [process_device, process_deviceR, create_sidewalk_device, store_device_info,
        create_iot_thing, associate_thing_with_sidewalk_device, get_device_profile,
        get_wireless_device, save_json_file, logEvent, provision_device, flash_device,
        successEvents, failStage, eventStage, stageNum, dp_json_path, wd_json_path,
          h1, h2, h3, h4, h5, h6, h7, h8, h9, h10, h11, h12, h13, h14]
    · simp
    · intro p hp
      simp [process_device, process_deviceR, create_sidewalk_device, store_device_info,
        create_iot_thing, associate_thing_with_sidewalk_device, get_device_profile,
        get_wireless_device, save_json_file, logEvent, provision_device, flash_device,
        successEvents, failStage, eventStage, stageNum, dp_json_path, wd_json_path,
          h1, h2, h3, h4, h5, h6, h7, h8, h9, h10, h11, h12, h13, h14, hp]
    · simp [process_device, process_deviceR, create_sidewalk_device, store_device_info,
        create_iot_thing, associate_thing_with_sidewalk_device, get_device_profile,
        get_wireless_device, save_json_file, logEvent, provision_device, flash_device,
        successEvents, failStage, eventStage, stageNum, dp_json_path, wd_json_path,
          h1, h2, h3, h4, h5, h6, h7, h8, h9, h10, h11, h12, h13, h14]
    · simp [process_device, process_deviceR, create_sidewalk_device, store_device_info,
        create_iot_thing, associate_thing_with_sidewalk_device, get_device_profile,
        get_wireless_device, save_json_file, logEvent, provision_device, flash_device,
        successEvents, failStage, eventStage, stageNum, dp_json_path, wd_json_path,
          h1, h2, h3, h4, h5, h6, h7, h8, h9, h10, h11, h12, h13, h14]
    · simp [process_device, process_deviceR, create_sidewalk_device, store_device_info,
        create_iot_thing, associate_thing_with_sidewalk_device, get_device_profile,
        get_wireless_device, save_json_file, logEvent, provision_device, flash_device,
        successEvents, failStage, eventStage, stageNum, dp_json_path, wd_json_path,
          h1, h2, h3, h4, h5, h6, h7, h8, h9, h10, h11, h12, h13, h14]
    · simp [process_device, process_deviceR, create_sidewalk_device, store_device_info,
        create_iot_thing, associate_thing_with_sidewalk_device, get_device_profile,
        get_wireless_device, save_json_file, logEvent, provision_device, flash_device,
        successEvents, failStage, eventStage, stageNum, dp_json_path, wd_json_path,
          h1, h2, h3, h4, h5, h6, h7, h8, h9, h10, h11, h12, h13, h14]
  rcases h15 : env.connectResp snr with e | u15
  · simp only [fsAfterRun, dp_json_path, wd_json_path, List.append_assoc] at h11 h12 h13
    refine ⟨wid, warn, tarn, snr, (successEvents env dev wid warn tarn snr).take 13,
        (successEvents env dev wid warn tarn snr).drop 13,
        (List.take_append_drop 13 _).symm, ?_, ⟨[(⟨dev, wid, warn, none, env.now, "active"⟩ : InventoryItem), (⟨dev, wid, warn, some tarn, env.now, "active"⟩ : InventoryItem)], ?_, ?_⟩, ?_, ⟨[(dev, wid, warn)], ?_⟩,
        ⟨[(dev, tarn)], ?_⟩, ⟨[(tarn, wid)], ?_⟩, ?_⟩
    · simp [process_device, process_deviceR, create_sidewalk_device, store_device_info,
        create_iot_thing, associate_thing_with_sidewalk_device, get_device_profile,
        get_wireless_device, save_json_file, logEvent, provision_device, flash_device,
        successEvents, failStage, eventStage, stageNum, dp_json_path, wd_json_path,
          h1, h2, h3, h4, h5, h6, h7, h8, h9, h10, h11, h12, h13, h14, h15]
    · simp [process_device, process_deviceR, create_sidewalk_device, store_device_info,
        create_iot_thing, associate_thing_with_sidewalk_device, get_device_profile,
        get_wireless_device, save_json_file, logEvent, provision_device, flash_device,
        successEvents, failStage, eventStage, stageNum, dp_json_path, wd_json_path,
          h1, h2, h3, h4, h5, h6, h7, h8, h9, h10, h11, h12, h13, h14, h15]
    · simp
    · intro p hp
      simp [process_device, process_deviceR, create_sidewalk_device, store_device_info,
        create_iot_thing, associate_thing_with_sidewalk_device, get_device_profile,
        get_wireless_device, save_json_file, logEvent, provision_device, flash_device,
        successEvents, failStage, eventStage, stageNum, dp_json_path, wd_json_path,
          h1, h2, h3, h4, h5, h6, h7, h8, h9, h10, h11, h12, h13, h14, h15, hp]
    · simp [process_device, process_deviceR, create_sidewalk_device, store_device_info,
        create_iot_thing, associate_thing_with_sidewalk_device, get_device_profile,
        get_wireless_device, save_json_file, logEvent, provision_device, flash_device,
        successEvents, failStage, eventStage, stageNum, dp_json_path, wd_json_path,
          h1, h2, h3, h4, h5, h6, h7, h8, h9, h10, h11, h12, h13, h14, h15]
    · simp [process_device, process_deviceR, create_sidewalk_device, store_device_info,
        create_iot_thing, associate_thing_with_sidewalk_device, get_device_profile,
        get_wireless_device, save_json_file, logEvent, provision_device, flash_device,
        successEvents, failStage, eventStage, stageNum, dp_json_path, wd_json_path,
          h1, h2, h3, h4, h5, h6, h7, h8, h9, h10, h11, h12, h13, h14, h15]
    · simp [process_device, process_deviceR, create_sidewalk_device, store_device_info,
        create_iot_thing, associate_thing_with_sidewalk_device, get_device_profile,
        get_wireless_device, save_json_file, logEvent, provision_device, flash_device,
        successEvents, failStage, eventStage, stageNum, dp_json_path, wd_json_path,
          h1, h2, h3, h4, h5, h6, h7, h8, h9, h10, h11, h12, h13, h14, h15]
    · simp [process_device, process_deviceR, create_sidewalk_device, store_device_info,
        create_iot_thing, associate_thing_with_sidewalk_device, get_device_profile,
        get_wireless_device, save_json_file, logEvent, provision_device, flash_device,
        successEvents, failStage, eventStage, stageNum, dp_json_path, wd_json_path,
          h1, h2, h3, h4, h5, h6, h7, h8, h9, h10, h11, h12, h13, h14, h15]
  rcases h16 : env.recoverResp with e | u16
  · simp only [fsAfterRun, dp_json_path, wd_json_path, List.append_assoc] at h11 h12 h13
    refine ⟨wid, warn, tarn, snr, (successEvents env dev wid warn tarn snr).take 14,
        (successEvents env dev wid warn tarn snr).drop 14,
        (List.take_append_drop 14 _).symm, ?_, ⟨[(⟨dev, wid, warn, none, env.now, "active"⟩ : InventoryItem), (⟨dev, wid, warn, some tarn, env.now, "active"⟩ : InventoryItem)], ?_, ?_⟩, ?_, ⟨[(dev, wid, warn)], ?_⟩,
        ⟨[(dev, tarn)], ?_⟩, ⟨[(tarn, wid)], ?_⟩, ?_⟩
    · simp [process_device, process_deviceR, create_sidewalk_device, store_device_info,
        create_iot_thing, associate_thing_with_sidewalk_device, get_device_profile,
        get_wireless_device, save_json_file, logEvent, provision_device, flash_device,
        successEvents, failStage, eventStage, stageNum, dp_json_path, wd_json_path,
          h1, h2, h3, h4, h5, h6, h7, h8, h9, h10, h11, h12, h13, h14, h15, h16]
    · simp [process_device, process_deviceR, create_sidewalk_device, store_device_info,
        create_iot_thing, associate_thing_with_sidewalk_device, get_device_profile,
        get_wireless_device, save_json_file, logEvent, provision_device, flash_device,
        successEvents, failStage, eventStage, stageNum, dp_json_path, wd_json_path,
          h1, h2, h3, h4, h5, h6, h7, h8, h9, h10, h11, h12, h13, h14, h15, h16]
    · simp
    · intro p hp
      simp [process_device, process_deviceR, create_sidewalk_device, store_device_info,
        create_iot_thing, associate_thing_with_sidewalk_device, get_device_profile,
        get_wireless_device, save_json_file, logEvent, provision_device, flash_device,
        successEvents, failStage, eventStage, stageNum, dp_json_path, wd_json_path,
          h1, h2, h3, h4, h5, h6, h7, h8, h9, h10, h11, h12, h13, h14, h15, h16, hp]
    · simp [process_device, process_deviceR, create_sidewalk_device, store_device_info,
        create_iot_thing, associate_thing_with_sidewalk_device, get_device_profile,
        get_wireless_device, save_json_file, logEvent, provision_device, flash_device,
        successEvents, failStage, eventStage, stageNum, dp_json_path, wd_json_path,
          h1, h2, h3, h4, h5, h6, h7, h8, h9, h10, h11, h12, h13, h14, h15, h16]
    · simp [process_device, process_deviceR, create_sidewalk_device, store_device_info,
        create_iot_thing, associate_thing_with_sidewalk_device, get_device_profile,
        get_wireless_device, save_json_file, logEvent, provision_device, flash_device,
        successEvents, failStage, eventStage, stageNum, dp_json_path, wd_json_path,
          h1, h2, h3, h4, h5, h6, h7, h8, h9, h10, h11, h12, h13, h14, h15, h16]
    · simp [process_device, process_deviceR, create_sidewalk_device, store_device_info,
        create_iot_thing, associate_thing_with_sidewalk_device, get_device_profile,
        get_wireless_device, save_json_file, logEvent, provision_device, flash_device,
        successEvents, failStage, eventStage, stageNum, dp_json_path, wd_json_path,
          h1, h2, h3, h4, h5, h6, h7, h8, h9, h10, h11, h12, h13, h14, h15, h16]
    · simp [process_device, process_deviceR, create_sidewalk_device, store_device_info,
        create_iot_thing, associate_thing_with_sidewalk_device, get_device_profile,
        get_wireless_device, save_json_file, logEvent, provision_device, flash_device,
        successEvents, failStage, eventStage, stageNum, dp_json_path, wd_json_path,
          h1, h2, h3, h4, h5, h6, h7, h8, h9, h10, h11, h12, h13, h14, h15, h16]
  rcases h17 : env.eraseResp with e | u17
  · simp only [fsAfterRun, dp_json_path, wd_json_path, List.append_assoc] at h11 h12 h13
    refine ⟨wid, warn, tarn, snr, (successEvents env dev wid warn tarn snr).take 15,
        (successEvents env dev wid warn tarn snr).drop 15,
        (List.take_append_drop 15 _).symm, ?_, ⟨[(⟨dev, wid, warn, none, env.now, "active"⟩ : InventoryItem), (⟨dev, wid, warn, some tarn, env.now, "active"⟩ : InventoryItem)], ?_, ?_⟩, ?_, ⟨[(dev, wid, warn)], ?_⟩,
        ⟨[(dev, tarn)], ?_⟩, ⟨[(tarn, wid)], ?_⟩, ?_⟩
    · simp [process_device, process_deviceR, create_sidewalk_device, store_device_info,
        create_iot_thing, associate_thing_with_sidewalk_device, get_device_profile,
        get_wireless_device, save_json_file, logEvent, provision_device, flash_device,
        successEvents, failStage, eventStage, stageNum, dp_json_path, wd_json_path,
          h1, h2, h3, h4, h5, h6, h7, h8, h9, h10, h11, h12, h13, h14, h15, h16, h17]
    · simp [process_device, process_deviceR, create_sidewalk_device, store_device_info,
        create_iot_thing, associate_thing_with_sidewalk_device, get_device_profile,
        get_wireless_device, save_json_file, logEvent, provision_device, flash_device,
        successEvents, failStage, eventStage, stageNum, dp_json_path, wd_json_path,
          h1, h2, h3, h4, h5, h6, h7, h8, h9, h10, h11, h12, h13, h14, h15, h16, h17]
    · simp
    · intro p hp
      simp [process_device, process_deviceR, create_sidewalk_device, store_device_info,
        create_iot_thing, associate_thing_with_sidewalk_device, get_device_profile,
        get_wireless_device, save_json_file, logEvent, provision_device, flash_device,
        successEvents, failStage, eventStage, stageNum, dp_json_path, wd_json_path,
          h1, h2, h3, h4, h5, h6, h7, h8, h9, h10, h11, h12, h13, h14, h15, h16, h17, hp]
    · simp [process_device, process_deviceR, create_sidewalk_device, store_device_info,
        create_iot_thing, associate_thing_with_sidewalk_device, get_device_profile,
        get_wireless_device, save_json_file, logEvent, provision_device, flash_device,
        successEvents, failStage, eventStage, stageNum, dp_json_path, wd_json_path,
          h1, h2, h3, h4, h5, h6, h7, h8, h9, h10, h11, h12, h13, h14, h15, h16, h17]
    · simp [process_device, process_deviceR, create_sidewalk_device, store_device_info,
        create_iot_thing, associate_thing_with_sidewalk_device, get_device_profile,
        get_wireless_device, save_json_file, logEvent, provision_device, flash_device,
        successEvents, failStage, eventStage, stageNum, dp_json_path, wd_json_path,
          h1, h2, h3, h4, h5, h6, h7, h8, h9, h10, h11, h12, h13, h14, h15, h16, h17]
    · simp [process_device, process_deviceR, create_sidewalk_device, store_device_info,
        create_iot_thing, associate_thing_with_sidewalk_device, get_device_profile,
        get_wireless_device, save_json_file, logEvent, provision_device, flash_device,
        successEvents, failStage, eventStage, stageNum, dp_json_path, wd_json_path,
          h1, h2, h3, h4, h5, h6, h7, h8, h9, h10, h11, h12, h13, h14, h15, h16, h17]
    · simp [process_device, process_deviceR, create_sidewalk_device, store_device_info,
        create_iot_thing, associate_thing_with_sidewalk_device, get_device_profile,
        get_wireless_device, save_json_file, logEvent, provision_device, flash_device,
        successEvents, failStage, eventStage, stageNum, dp_json_path, wd_json_path,
          h1, h2, h3, h4, h5, h6, h7, h8, h9, h10, h11, h12, h13, h14, h15, h16, h17]
  rcases h18 : env.programResp (mfg_hex_path dev) with e | u18
  · simp only [fsAfterRun, dp_json_path, wd_json_path, List.append_assoc] at h11 h12 h13
    refine ⟨wid, warn, tarn, snr, (successEvents env dev wid warn tarn snr).take 16,
        (successEvents env dev wid warn tarn snr).drop 16,
        (List.take_append_drop 16 _).symm, ?_, ⟨[(⟨dev, wid, warn, none, env.now, "active"⟩ : InventoryItem), (⟨dev, wid, warn, some tarn, env.now, "active"⟩ : InventoryItem)], ?_, ?_⟩, ?_, ⟨[(dev, wid, warn)], ?_⟩,
        ⟨[(dev, tarn)], ?_⟩, ⟨[(tarn, wid)], ?_⟩, ?_⟩
    · simp [process_device, process_deviceR, create_sidewalk_device, store_device_info,
        create_iot_thing, associate_thing_with_sidewalk_device, get_device_profile,
        get_wireless_device, save_json_file, logEvent, provision_device, flash_device,
        successEvents, failStage, eventStage, stageNum, dp_json_path, wd_json_path,
          h1, h2, h3, h4, h5, h6, h7, h8, h9, h10, h11, h12, h13, h14, h15, h16, h17, h18]
    · simp [process_device, process_deviceR, create_sidewalk_device, store_device_info,
        create_iot_thing, associate_thing_with_sidewalk_device, get_device_profile,
        get_wireless_device, save_json_file, logEvent, provision_device, flash_device,
        successEvents, failStage, eventStage, stageNum, dp_json_path, wd_json_path,
          h1, h2, h3, h4, h5, h6, h7, h8, h9, h10, h11, h12, h13, h14, h15, h16, h17, h18]
    · simp
    · intro p hp
      simp [process_device, process_deviceR, create_sidewalk_device, store_device_info,
        create_iot_thing, associate_thing_with_sidewalk_device, get_device_profile,
        get_wireless_device, save_json_file, logEvent, provision_device, flash_device,
        successEvents, failStage, eventStage, stageNum, dp_json_path, wd_json_path,
          h1, h2, h3, h4, h5, h6, h7, h8, h9, h10, h11, h12, h13, h14, h15, h16, h17, h18, hp]
    · simp [process_device, process_deviceR, create_sidewalk_device, store_device_info,
        create_iot_thing, associate_thing_with_sidewalk_device, get_device_profile,
        get_wireless_device, save_json_file, logEvent, provision_device, flash_device,
        successEvents, failStage, eventStage, stageNum, dp_json_path, wd_json_path,
          h1, h2, h3, h4, h5, h6, h7, h8, h9, h10, h11, h12, h13, h14, h15, h16, h17, h18]
    · simp [process_device, process_deviceR, create_sidewalk_device, store_device_info,
        create_iot_thing, associate_thing_with_sidewalk_device, get_device_profile,
        get_wireless_device, save_json_file, logEvent, provision_device, flash_device,
        successEvents, failStage, eventStage, stageNum, dp_json_path, wd_json_path,
          h1, h2, h3, h4, h5, h6, h7, h8, h9, h10, h11, h12, h13, h14, h15, h16, h17, h18]
    · simp [process_device, process_deviceR, create_sidewalk_device, store_device_info,
        create_iot_thing, associate_thing_with_sidewalk_device, get_device_profile,
        get_wireless_device, save_json_file, logEvent, provision_device, flash_device,
        successEvents, failStage, eventStage, stageNum, dp_json_path, wd_json_path,
          h1, h2, h3, h4, h5, h6, h7, h8, h9, h10, h11, h12, h13, h14, h15, h16, h17, h18]
    · simp [process_device, process_deviceR, create_sidewalk_device, store_device_info,
        create_iot_thing, associate_thing_with_sidewalk_device, get_device_profile,
        get_wireless_device, save_json_file, logEvent, provision_device, flash_device,
        successEvents, failStage, eventStage, stageNum, dp_json_path, wd_json_path,
          h1, h2, h3, h4, h5, h6, h7, h8, h9, h10, h11, h12, h13, h14, h15, h16, h17, h18]
  rcases h19 : env.programResp env.firmwareHexPath with e | u19
  · simp only [fsAfterRun, dp_json_path, wd_json_path, List.append_assoc] at h11 h12 h13
    refine ⟨wid, warn, tarn, snr, (successEvents env dev wid warn tarn snr).take 17,
        (successEvents env dev wid warn tarn snr).drop 17,
        (List.take_append_drop 17 _).symm, ?_, ⟨[(⟨dev, wid, warn, none, env.now, "active"⟩ : InventoryItem), (⟨dev, wid, warn, some tarn, env.now, "active"⟩ : InventoryItem)], ?_, ?_⟩, ?_, ⟨[(dev, wid, warn)], ?_⟩,
        ⟨[(dev, tarn)], ?_⟩, ⟨[(tarn, wid)], ?_⟩, ?_⟩
    · simp [process_device, process_deviceR, create_sidewalk_device, store_device_info,
        create_iot_thing, associate_thing_with_sidewalk_device, get_device_profile,
        get_wireless_device, save_json_file, logEvent, provision_device, flash_device,
        successEvents, failStage, eventStage, stageNum, dp_json_path, wd_json_path,
          h1, h2, h3, h4, h5, h6, h7, h8, h9, h10, h11, h12, h13, h14, h15, h16, h17, h18, h19]
    · simp [process_device, process_deviceR, create_sidewalk_device, store_device_info,
        create_iot_thing, associate_thing_with_sidewalk_device, get_device_profile,
        get_wireless_device, save_json_file, logEvent, provision_device, flash_device,
        successEvents, failStage, eventStage, stageNum, dp_json_path, wd_json_path,
          h1, h2, h3, h4, h5, h6, h7, h8, h9, h10, h11, h12, h13, h14, h15, h16, h17, h18, h19]
    · simp
    · intro p hp
      simp [process_device, process_deviceR, create_sidewalk_device, store_device_info,
        create_iot_thing, associate_thing_with_sidewalk_device, get_device_profile,
        get_wireless_device, save_json_file, logEvent, provision_device, flash_device,
        successEvents, failStage, eventStage, stageNum, dp_json_path, wd_json_path,
          h1, h2, h3, h4, h5, h6, h7, h8, h9, h10, h11, h12, h13, h14, h15, h16, h17, h18, h19, hp]
    · simp [process_device, process_deviceR, create_sidewalk_device, store_device_info,
        create_iot_thing, associate_thing_with_sidewalk_device, get_device_profile,
        get_wireless_device, save_json_file, logEvent, provision_device, flash_device,
        successEvents, failStage, eventStage, stageNum, dp_json_path, wd_json_path,
          h1, h2, h3, h4, h5, h6, h7, h8, h9, h10, h11, h12, h13, h14, h15, h16, h17, h18, h19]
    · simp [process_device, process_deviceR, create_sidewalk_device, store_device_info,
        create_iot_thing, associate_thing_with_sidewalk_device, get_device_profile,
        get_wireless_device, save_json_file, logEvent, provision_device, flash_device,
        successEvents, failStage, eventStage, stageNum, dp_json_path, wd_json_path,
          h1, h2, h3, h4, h5, h6, h7, h8, h9, h10, h11, h12, h13, h14, h15, h16, h17, h18, h19]
    · simp [process_device, process_deviceR, create_sidewalk_device, store_device_info,
        create_iot_thing, associate_thing_with_sidewalk_device, get_device_profile,
        get_wireless_device, save_json_file, logEvent, provision_device, flash_device,
        successEvents, failStage, eventStage, stageNum, dp_json_path, wd_json_path,
          h1, h2, h3, h4, h5, h6, h7, h8, h9, h10, h11, h12, h13, h14, h15, h16, h17, h18, h19]
    · simp [process_device, process_deviceR, create_sidewalk_device, store_device_info,
        create_iot_thing, associate_thing_with_sidewalk_device, get_device_profile,
        get_wireless_device, save_json_file, logEvent, provision_device, flash_device,
        successEvents, failStage, eventStage, stageNum, dp_json_path, wd_json_path,
          h1, h2, h3, h4, h5, h6, h7, h8, h9, h10, h11, h12, h13, h14, h15, h16, h17, h18, h19]
  rcases h20 : env.goResp with e | u20
  · simp only [fsAfterRun, dp_json_path, wd_json_path, List.append_assoc] at h11 h12 h13
    refine ⟨wid, warn, tarn, snr, (successEvents env dev wid warn tarn snr).take 18,
        (successEvents env dev wid warn tarn snr).drop 18,
        (List.take_append_drop 18 _).symm, ?_, ⟨[(⟨dev, wid, warn, none, env.now, "active"⟩ : InventoryItem), (⟨dev, wid, warn, some tarn, env.now, "active"⟩ : InventoryItem)], ?_, ?_⟩, ?_, ⟨[(dev, wid, warn)], ?_⟩,
        ⟨[(dev, tarn)], ?_⟩, ⟨[(tarn, wid)], ?_⟩, ?_⟩
    · simp [process_device, process_deviceR, create_sidewalk_device, store_device_info,
        create_iot_thing, associate_thing_with_sidewalk_device, get_device_profile,
        get_wireless_device, save_json_file, logEvent, provision_device, flash_device,
        successEvents, failStage, eventStage, stageNum, dp_json_path, wd_json_path,
          h1, h2, h3, h4, h5, h6, h7, h8, h9, h10, h11, h12, h13, h14, h15, h16, h17, h18, h19, h20]
    · simp [process_device, process_deviceR, create_sidewalk_device, store_device_info,
        create_iot_thing, associate_thing_with_sidewalk_device, get_device_profile,
        get_wireless_device, save_json_file, logEvent, provision_device, flash_device,
        successEvents, failStage, eventStage, stageNum, dp_json_path, wd_json_path,
          h1, h2, h3, h4, h5, h6, h7, h8, h9, h10, h11, h12, h13, h14, h15, h16, h17, h18, h19, h20]
    · simp
    · intro p hp
      simp [process_device, process_deviceR, create_sidewalk_device, store_device_info,
        create_iot_thing, associate_thing_with_sidewalk_device, get_device_profile,
        get_wireless_device, save_json_file, logEvent, provision_device, flash_device,
        successEvents, failStage, eventStage, stageNum, dp_json_path, wd_json_path,
          h1, h2, h3, h4, h5, h6, h7, h8, h9, h10, h11, h12, h13, h14, h15, h16, h17, h18, h19, h20, hp]
    · simp [process_device, process_deviceR, create_sidewalk_device, store_device_info,
        create_iot_thing, associate_thing_with_sidewalk_device, get_device_profile,
        get_wireless_device, save_json_file, logEvent, provision_device, flash_device,
        successEvents, failStage, eventStage, stageNum, dp_json_path, wd_json_path,
          h1, h2, h3, h4, h5, h6, h7, h8, h9, h10, h11, h12, h13, h14, h15, h16, h17, h18, h19, h20]
    · simp [process_device, process_deviceR, create_sidewalk_device, store_device_info,
        create_iot_thing, associate_thing_with_sidewalk_device, get_device_profile,
        get_wireless_device, save_json_file, logEvent, provision_device, flash_device,
        successEvents, failStage, eventStage, stageNum, dp_json_path, wd_json_path,
          h1, h2, h3, h4, h5, h6, h7, h8, h9, h10, h11, h12, h13, h14, h15, h16, h17, h18, h19, h20]
    · simp [process_device, process_deviceR, create_sidewalk_device, store_device_info,
        create_iot_thing, associate_thing_with_sidewalk_device, get_device_profile,
        get_wireless_device, save_json_file, logEvent, provision_device, flash_device,
        successEvents, failStage, eventStage, stageNum, dp_json_path, wd_json_path,
          h1, h2, h3, h4, h5, h6, h7, h8, h9, h10, h11, h12, h13, h14, h15, h16, h17, h18, h19, h20]
    · simp [process_device, process_deviceR, create_sidewalk_device, store_device_info,
        create_iot_thing, associate_thing_with_sidewalk_device, get_device_profile,
        get_wireless_device, save_json_file, logEvent, provision_device, flash_device,
        successEvents, failStage, eventStage, stageNum, dp_json_path, wd_json_path,
          h1, h2, h3, h4, h5, h6, h7, h8, h9, h10, h11, h12, h13, h14, h15, h16, h17, h18, h19, h20]
  rcases h21 : env.resetResp with e | u21
  · simp only [fsAfterRun, dp_json_path, wd_json_path, List.append_assoc] at h11 h12 h13
    refine ⟨wid, warn, tarn, snr, (successEvents env dev wid warn tarn snr).take 19,
        (successEvents env dev wid warn tarn snr).drop 19,
        (List.take_append_drop 19 _).symm, ?_, ⟨[(⟨dev, wid, warn, none, env.now, "active"⟩ : InventoryItem), (⟨dev, wid, warn, some tarn, env.now, "active"⟩ : InventoryItem)], ?_, ?_⟩, ?_, ⟨[(dev, wid, warn)], ?_⟩,
        ⟨[(dev, tarn)], ?_⟩, ⟨[(tarn, wid)], ?_⟩, ?_⟩
    · simp [process_device, process_deviceR, create_sidewalk_device, store_device_info,
        create_iot_thing, associate_thing_with_sidewalk_device, get_device_profile,
        get_wireless_device, save_json_file, logEvent, provision_device, flash_device,
        successEvents, failStage, eventStage, stageNum, dp_json_path, wd_json_path,
          h1, h2, h3, h4, h5, h6, h7, h8, h9, h10, h11, h12, h13, h14, h15, h16, h17, h18, h19, h20, h21]
    · simp [process_device, process_deviceR, create_sidewalk_device, store_device_info,
        create_iot_thing, associate_thing_with_sidewalk_device, get_device_profile,
        get_wireless_device, save_json_file, logEvent, provision_device, flash_device,
        successEvents, failStage, eventStage, stageNum, dp_json_path, wd_json_path,
          h1, h2, h3, h4, h5, h6, h7, h8, h9, h10, h11, h12, h13, h14, h15, h16, h17, h18, h19, h20, h21]
    · simp
    · intro p hp
      simp [process_device, process_deviceR, create_sidewalk_device, store_device_info,
        create_iot_thing, associate_thing_with_sidewalk_device, get_device_profile,
        get_wireless_device, save_json_file, logEvent, provision_device, flash_device,
        successEvents, failStage, eventStage, stageNum, dp_json_path, wd_json_path,
          h1, h2, h3, h4, h5, h6, h7, h8, h9, h10, h11, h12, h13, h14, h15, h16, h17, h18, h19, h20, h21, hp]
    · simp [process_device, process_deviceR, create_sidewalk_device, store_device_info,
        create_iot_thing, associate_thing_with_sidewalk_device, get_device_profile,
        get_wireless_device, save_json_file, logEvent, provision_device, flash_device,
        successEvents, failStage, eventStage, stageNum, dp_json_path, wd_json_path,
          h1, h2, h3, h4, h5, h6, h7, h8, h9, h10, h11, h12, h13, h14, h15, h16, h17, h18, h19, h20, h21]
    · simp [process_device, process_deviceR, create_sidewalk_device, store_device_info,
        create_iot_thing, associate_thing_with_sidewalk_device, get_device_profile,
        get_wireless_device, save_json_file, logEvent, provision_device, flash_device,
        successEvents, failStage, eventStage, stageNum, dp_json_path, wd_json_path,
          h1, h2, h3, h4, h5, h6, h7, h8, h9, h10, h11, h12, h13, h14, h15, h16, h17, h18, h19, h20, h21]
    · simp [process_device, process_deviceR, create_sidewalk_device, store_device_info,
        create_iot_thing, associate_thing_with_sidewalk_device, get_device_profile,
        get_wireless_device, save_json_file, logEvent, provision_device, flash_device,
        successEvents, failStage, eventStage, stageNum, dp_json_path, wd_json_path,
          h1, h2, h3, h4, h5, h6, h7, h8, h9, h10, h11, h12, h13, h14, h15, h16, h17, h18, h19, h20, h21]
    · simp [process_device, process_deviceR, create_sidewalk_device, store_device_info,
        create_iot_thing, associate_thing_with_sidewalk_device, get_device_profile,
        get_wireless_device, save_json_file, logEvent, provision_device, flash_device,
        successEvents, failStage, eventStage, stageNum, dp_json_path, wd_json_path,
          h1, h2, h3, h4, h5, h6, h7, h8, h9, h10, h11, h12, h13, h14, h15, h16, h17, h18, h19, h20, h21]
  simp only [fsAfterRun, dp_json_path, wd_json_path, List.append_assoc] at h11 h12 h13
  refine ⟨wid, warn, tarn, snr, (successEvents env dev wid warn tarn snr).take 20,
      (successEvents env dev wid warn tarn snr).drop 20,
      (List.take_append_drop 20 _).symm, ?_, ⟨[(⟨dev, wid, warn, none, env.now, "active"⟩ : InventoryItem), (⟨dev, wid, warn, some tarn, env.now, "active"⟩ : InventoryItem)], ?_, ?_⟩, ?_, ⟨[(dev, wid, warn)], ?_⟩,
      ⟨[(dev, tarn)], ?_⟩, ⟨[(tarn, wid)], ?_⟩, ?_⟩
  · simp [process_device, process_deviceR, create_sidewalk_device, store_device_info,
      create_iot_thing, associate_thing_with_sidewalk_device, get_device_profile,
      get_wireless_device, save_json_file, logEvent, provision_device, flash_device,
      successEvents, failStage, eventStage, stageNum, dp_json_path, wd_json_path,
        h1, h2, h3, h4, h5, h6, h7, h8, h9, h10, h11, h12, h13, h14, h15, h16, h17, h18, h19, h20, h21]
  · simp [process_device, process_deviceR, create_sidewalk_device, store_device_info,
      create_iot_thing, associate_thing_with_sidewalk_device, get_device_profile,
      get_wireless_device, save_json_file, logEvent, provision_device, flash_device,
      successEvents, failStage, eventStage, stageNum, dp_json_path, wd_json_path,
        h1, h2, h3, h4, h5, h6, h7, h8, h9, h10, h11, h12, h13, h14, h15, h16, h17, h18, h19, h20, h21]
  · simp
  · intro p hp
    simp [process_device, process_deviceR, create_sidewalk_device, store_device_info,
      create_iot_thing, associate_thing_with_sidewalk_device, get_device_profile,
      get_wireless_device, save_json_file, logEvent, provision_device, flash_device,
      successEvents, failStage, eventStage, stageNum, dp_json_path, wd_json_path,
        h1, h2, h3, h4, h5, h6, h7, h8, h9, h10, h11, h12, h13, h14, h15, h16, h17, h18, h19, h20, h21, hp]
  · simp [process_device, process_deviceR, create_sidewalk_device, store_device_info,
      create_iot_thing, associate_thing_with_sidewalk_device, get_device_profile,
      get_wireless_device, save_json_file, logEvent, provision_device, flash_device,
      successEvents, failStage, eventStage, stageNum, dp_json_path, wd_json_path,
        h1, h2, h3, h4, h5, h6, h7, h8, h9, h10, h11, h12, h13, h14, h15, h16, h17, h18, h19, h20, h21]
  · simp [process_device, process_deviceR, create_sidewalk_device, store_device_info,
      create_iot_thing, associate_thing_with_sidewalk_device, get_device_profile,
      get_wireless_device, save_json_file, logEvent, provision_device, flash_device,
      successEvents, failStage, eventStage, stageNum, dp_json_path, wd_json_path,
        h1, h2, h3, h4, h5, h6, h7, h8, h9, h10, h11, h12, h13, h14, h15, h16, h17, h18, h19, h20, h21]
  · simp [process_device, process_deviceR, create_sidewalk_device, store_device_info,
      create_iot_thing, associate_thing_with_sidewalk_device, get_device_profile,
      get_wireless_device, save_json_file, logEvent, provision_device, flash_device,
      successEvents, failStage, eventStage, stageNum, dp_json_path, wd_json_path,
        h1, h2, h3, h4, h5, h6, h7, h8, h9, h10, h11, h12, h13, h14, h15, h16, h17, h18, h19, h20, h21]
  · simp [process_device, process_deviceR, create_sidewalk_device, store_device_info,
      create_iot_thing, associate_thing_with_sidewalk_device, get_device_profile,
      get_wireless_device, save_json_file, logEvent, provision_device, flash_device,
      successEvents, failStage, eventStage, stageNum, dp_json_path, wd_json_path,
        h1, h2, h3, h4, h5, h6, h7, h8, h9, h10, h11, h12, h13, h14, h15, h16, h17, h18, h19, h20, h21]

/-- C7: in every run the emitted external calls follow the fixed stage order
(stage numbers are non-decreasing), no stage is skipped (each step increases
the stage by at most one, and the first call belongs to stage 1), and the
wireless-device creation and thing creation are each invoked at most once. -/
theorem claim_C7_stage_order (env : Env) (w : World) (dev : String) :
    ∃ new,
      (process_device env w dev).2.events = w.events ++ new ∧
      List.Chain' (fun a b => a ≤ b) (new.map eventStage) ∧
      List.Chain' (fun a b => b ≤ a + 1) (new.map eventStage) ∧
      (∀ s ∈ new.map eventStage, 1 ≤ s) ∧
      ((new.map eventStage).head? = none ∨ (new.map eventStage).head? = some 1) ∧
      new.countP isCW ≤ 1 ∧
      new.countP isCT ≤ 1 := by
  obtain ⟨wid, warn, tarn, snr, new, rest, hpre, hev, -, -, -, -, -, -⟩ := run_shape env w dev
  have hfull : (successEvents env dev wid warn tarn snr).map eventStage
      = [1, 1, 2, 3, 4, 5, 5, 5, 5, 6, 7, 7, 7, 7, 7, 7, 7, 7, 7, 7] := by
    simp [successEvents, eventStage]
  have hsplit : new.map eventStage ++ rest.map eventStage
      = [1, 1, 2, 3, 4, 5, 5, 5, 5, 6, 7, 7, 7, 7, 7, 7, 7, 7, 7, 7] := by
    rw [← List.map_append, ← hpre, hfull]
  refine ⟨new, hev, ?_, ?_, ?_, ?_, ?_, ?_⟩
  · have hc : List.Chain' (fun a b : Nat => a ≤ b)
        (new.map eventStage ++ rest.map eventStage) := by
      rw [hsplit]
      simp [List.chain'_cons]
    exact (List.chain'_append.mp hc).1
  · have hc : List.Chain' (fun a b : Nat => b ≤ a + 1)
        (new.map eventStage ++ rest.map eventStage) := by
      rw [hsplit]
      simp [List.chain'_cons]
    exact (List.chain'_append.mp hc).1
  · intro s hsmem
    have hs2 : s ∈ new.map eventStage ++ rest.map eventStage :=
      List.mem_append_left _ hsmem
    rw [hsplit] at hs2
    have hall : ∀ x ∈ [1, 1, 2, 3, 4, 5, 5, 5, 5, 6, 7, 7, 7, 7, 7, 7, 7, 7, 7, 7],
        1 ≤ x := by decide
    exact hall s hs2
  · cases hn : new.map eventStage with
    | nil => exact Or.inl rfl
    | cons a t =>
      right
      rw [hn] at hsplit
      have ha : some a = some 1 := by
        have := congrArg List.head? hsplit
        simpa using this
      simp at ha
      simp [ha]
  · have h1 : new.countP isCW + rest.countP isCW
        = (successEvents env dev wid warn tarn snr).countP isCW := by
      rw [hpre, List.countP_append]
    have h2 : (successEvents env dev wid warn tarn snr).countP isCW = 1 := by
      simp [successEvents, isCW, List.countP_cons]
    omega
  · have h1 : new.countP isCT + rest.countP isCT
        = (successEvents env dev wid warn tarn snr).countP isCT := by
      rw [hpre, List.countP_append]
    have h2 : (successEvents env dev wid warn tarn snr).countP isCT = 1 := by
      simp [successEvents, isCT, List.countP_cons]
    omega

/-- C8: when a run fails at stage `s`, no event of any later stage is ever
emitted, and nothing created earlier survives unchanged: the event trace,
the ledger, the filesystem and the cloud-resource lists are only extended,
never rolled back. -/
theorem claim_C8_no_rollback (env : Env) (w : World) (dev : String) (s : Stage) (e : String)
    (hfail : (process_deviceR env w dev).1 = .error (s, e)) :
    ∃ new,
      (process_device env w dev).2.events = w.events ++ new ∧
      (∀ x ∈ new, eventStage x ≤ stageNum s) ∧
      (∃ t, (process_device env w dev).2.ledger = w.ledger ++ t) ∧
      (∀ p ∈ w.fs, p ∈ (process_device env w dev).2.fs) ∧
      (∃ t, (process_device env w dev).2.wirelessDevices = w.wirelessDevices ++ t) ∧
      (∃ t, (process_device env w dev).2.things = w.things ++ t) ∧
      (∃ t, (process_device env w dev).2.associations = w.associations ++ t) := by
  obtain ⟨wid, warn, tarn, snr, new, rest, -, hev, ⟨t, hl, -⟩, hfs, hwd, hth, has, hbound⟩ :=
    run_shape env w dev
  refine ⟨new, hev, ?_, ⟨t, hl⟩, hfs, hwd, hth, has⟩
  intro x hx
  have hb := hbound x hx
  simp only [failStage, hfail] at hb
  exact hb

/-- Witness for C8 at the environment whose associate call fails. -/
theorem claim_C8_no_rollback_witness :
    ∃ new,
      (process_device assocFailEnv sampleWorld "D1").2.events = sampleWorld.events ++ new ∧
      (∀ x ∈ new, eventStage x ≤ stageNum Stage.associate) ∧
      (∃ t, (process_device assocFailEnv sampleWorld "D1").2.ledger =
        sampleWorld.ledger ++ t) ∧
      (∀ p ∈ sampleWorld.fs, p ∈ (process_device assocFailEnv sampleWorld "D1").2.fs) ∧
      (∃ t, (process_device assocFailEnv sampleWorld "D1").2.wirelessDevices =
        sampleWorld.wirelessDevices ++ t) ∧
      (∃ t, (process_device assocFailEnv sampleWorld "D1").2.things =
        sampleWorld.things ++ t) ∧
      (∃ t, (process_device assocFailEnv sampleWorld "D1").2.associations =
        sampleWorld.associations ++ t) :=
  claim_C8_no_rollback assocFailEnv sampleWorld "D1" Stage.associate "conflict" rfl

/-- C9: every inventory row the pipeline ever writes — through a full
`process_device` run or through any direct `store_device_info` call — has
status `"active"`; no call path writes any other status value. -/
theorem claim_C9_status_always_active (env : Env) (w : World)
    (dev wid warn : String) (tarn : Option String) :
    (∀ r ∈ (process_device env w dev).2.ledger, r ∈ w.ledger ∨ r.status = "active") ∧
    (∀ r ∈ (store_device_info env w dev wid warn tarn).2.ledger,
      r ∈ w.ledger ∨ r.status = "active") := by
  constructor
  · obtain ⟨wid2, warn2, tarn2, snr2, new, rest, -, -, ⟨t, hl, hact⟩, -, -, -, -, -⟩ :=
      run_shape env w dev
    intro r hr
    rw [hl] at hr
    rcases List.mem_append.mp hr with h | h
    · exact Or.inl h
    · exact Or.inr (hact r h)
  · intro r hr
    rcases hresp : env.putItemResp ⟨dev, wid, warn, tarn, env.now, "active"⟩ with e | u
    all_goals simp [store_device_info, logEvent, hresp] at hr
    · exact Or.inl hr
    · rcases hr with h | h
      · exact Or.inl h
      · exact Or.inr (by simp [h])
